import Mathlib

/-!
Verification of the rust-sm83 Game-Boy (Sharp SM83) emulator core.

The development shallow-embeds the relevant Rust sources:

* namespace `Proto` — the standalone modules `src/cpu/mmu.rs`,
  `src/cpu/hw/interrupts.rs` and `src/cpu/registers.rs` (address-space
  dispatch, bank-controller register decode, interrupt selection,
  register-pair composition).
* namespace `Core` — the authoritative execution engine `src/cpu.rs`
  and the snapshot-loading logic of `src/device.rs`.  The engine's
  memory substrate (`crate::mmu`) and register file (`crate::register`)
  are not part of the reviewed sources, so those two leaves are
  modelled from the specification (flat byte store + flags byte whose
  low nibble is always zero); every function of `src/cpu.rs` itself is
  translated directly.

Machine integers are embedded as `Nat` with explicit `% 2^w` at the
points where the Rust code wraps (`wrapping_add`, `as u8`, ...).
Rust `panic!`/`unreachable!` paths are embedded as `Option.none`.
-/

set_option maxRecDepth 10000
set_option maxHeartbeats 2000000

/-- Pointwise update of a byte-store modelled as a function. -/
def upd (f : Nat → Nat) (i v : Nat) : Nat → Nat :=
  fun j => if j = i then v else f j

namespace Proto

/-- Cartridge memory-bank-controller families (`src/cpu/mmu.rs`). -/
inductive MBCType where
  | None
  | MBC1
  | MBC2
  | MBC3
  | MBC5
deriving DecidableEq, Repr

/-- The memory aggregate of `src/cpu/mmu.rs`: region stores plus
bank-controller state.  Fixed-size `[u8; N]` arrays are embedded as
functions from index to byte. -/
structure Memory where
  rom_bank_0 : Nat → Nat
  rom_bank_n : Nat → Nat
  vram : Nat → Nat
  external_ram : Nat → Nat
  wram : Nat → Nat
  echo_ram : Nat → Nat
  oam : Nat → Nat
  unusable : Nat → Nat
  io_registers : Nat → Nat
  hram : Nat → Nat
  interrupt_enable : Nat
  mbc_type : MBCType
  rom_bank : Nat
  ram_bank : Nat
  ram_enabled : Bool
  banking_mode : Nat

/-- `Memory::new` of `src/cpu/mmu.rs`. -/
def Memory.new : Memory where
  rom_bank_0 := fun _ => 0
  rom_bank_n := fun _ => 0
  vram := fun _ => 0
  external_ram := fun _ => 0
  wram := fun _ => 0
  echo_ram := fun _ => 0
  oam := fun _ => 0
  unusable := fun _ => 0
  io_registers := fun _ => 0
  hram := fun _ => 0
  interrupt_enable := 0
  mbc_type := MBCType.None
  rom_bank := 1
  ram_bank := 0
  ram_enabled := false
  banking_mode := 0

/-- `Memory::read_io_register` of `src/cpu/mmu.rs`.  Every arm of the
source match reads `io_registers[addr - 0xFF00]`; the range structure is
kept. -/
def Memory.read_io_register (m : Memory) (addr : Nat) : Nat :=
  if addr = 0xFF00 then m.io_registers 0x00
  else if 0xFF01 ≤ addr ∧ addr ≤ 0xFF02 then m.io_registers (addr - 0xFF00)
  else if 0xFF04 ≤ addr ∧ addr ≤ 0xFF07 then m.io_registers (addr - 0xFF00)
  else if addr = 0xFF0F then m.io_registers 0x0F
  else if 0xFF10 ≤ addr ∧ addr ≤ 0xFF3F then m.io_registers (addr - 0xFF00)
  else if addr = 0xFF46 then m.io_registers 0x46
  else if 0xFF40 ≤ addr ∧ addr ≤ 0xFF4B then m.io_registers (addr - 0xFF00)
  else if addr = 0xFF50 then m.io_registers 0x50
  else m.io_registers (addr - 0xFF00)

/-- `Memory::read_byte` of `src/cpu/mmu.rs`: dispatch by address range.
The trailing branch corresponds to the final `0xFFFF` arm of the Rust
match, which is exhaustive over `u16`. -/
def Memory.read_byte (m : Memory) (addr : Nat) : Nat :=
  if addr ≤ 0x3FFF then m.rom_bank_0 addr
  else if addr ≤ 0x7FFF then m.rom_bank_n (addr - 0x4000)
  else if addr ≤ 0x9FFF then m.vram (addr - 0x8000)
  else if addr ≤ 0xBFFF then
    (if m.ram_enabled then m.external_ram (addr - 0xA000) else 0xFF)
  else if addr ≤ 0xDFFF then m.wram (addr - 0xC000)
  else if addr ≤ 0xFDFF then m.wram (addr - 0xE000)
  else if addr ≤ 0xFE9F then m.oam (addr - 0xFE00)
  else if addr ≤ 0xFEFF then 0xFF
  else if addr ≤ 0xFF7F then m.read_io_register addr
  else if addr ≤ 0xFFFE then m.hram (addr - 0xFF80)
  else m.interrupt_enable

/-- `Memory::dma_transfer` of `src/cpu/mmu.rs`: copies 0xA0 bytes from
`source << 8` into OAM, reading through `read_byte` as the loop
progresses. -/
def Memory.dma_transfer (m : Memory) (source : Nat) : Memory :=
  let source_addr := source <<< 8
  (List.range 0xA0).foldl
    (fun acc i => { acc with oam := upd acc.oam i (acc.read_byte (source_addr + i)) }) m

/-- `Memory::write_io_register` of `src/cpu/mmu.rs`. -/
def Memory.write_io_register (m : Memory) (addr v : Nat) : Memory :=
  if addr = 0xFF46 then
    ({ m with io_registers := upd m.io_registers 0x46 v }).dma_transfer v
  else { m with io_registers := upd m.io_registers (addr - 0xFF00) v }

/-- `Memory::select_rom_bank` of `src/cpu/mmu.rs`: stores the bank index
verbatim (the source comments that no bank copy is performed). -/
def Memory.select_rom_bank (m : Memory) (bank : Nat) : Memory :=
  { m with rom_bank := bank }

/-- `Memory::select_ram_bank` of `src/cpu/mmu.rs`. -/
def Memory.select_ram_bank (m : Memory) (bank : Nat) : Memory :=
  { m with ram_bank := bank }

/-- `Memory::set_ram_enabled` of `src/cpu/mmu.rs`. -/
def Memory.set_ram_enabled (m : Memory) (enabled : Bool) : Memory :=
  { m with ram_enabled := enabled }

/-- `Memory::set_banking_mode` of `src/cpu/mmu.rs`. -/
def Memory.set_banking_mode (m : Memory) (mode : Nat) : Memory :=
  { m with banking_mode := mode &&& 0x01 }

/-- `Memory::write_mbc_register` of `src/cpu/mmu.rs`. -/
def Memory.write_mbc_register (m : Memory) (addr v : Nat) : Memory :=
  match m.mbc_type with
  | MBCType.None =>
      if addr ≤ 0x3FFF then { m with rom_bank_0 := upd m.rom_bank_0 addr v }
      else if addr ≤ 0x7FFF then { m with rom_bank_n := upd m.rom_bank_n (addr - 0x4000) v }
      else m
  | MBCType.MBC1 =>
      if addr ≤ 0x1FFF then
        m.set_ram_enabled (v &&& 0x0F == 0x0A)
      else if addr ≤ 0x3FFF then
        let bank := v &&& 0x1F
        let bank := if bank = 0 then 1 else bank
        m.select_rom_bank ((m.rom_bank &&& 0x60) ||| bank)
      else if addr ≤ 0x5FFF then
        let upper_bits := (v &&& 0x03) <<< 5
        if m.banking_mode = 0 then
          m.select_rom_bank ((m.rom_bank &&& 0x1F) ||| upper_bits)
        else
          m.select_ram_bank (v &&& 0x03)
      else if addr ≤ 0x7FFF then
        m.set_banking_mode (v &&& 0x01)
      else m
  | _ => m

/-- `Memory::write_byte` of `src/cpu/mmu.rs`. -/
def Memory.write_byte (m : Memory) (addr v : Nat) : Memory :=
  if addr ≤ 0x7FFF then m.write_mbc_register addr v
  else if addr ≤ 0x9FFF then { m with vram := upd m.vram (addr - 0x8000) v }
  else if addr ≤ 0xBFFF then
    (if m.ram_enabled then { m with external_ram := upd m.external_ram (addr - 0xA000) v } else m)
  else if addr ≤ 0xDFFF then { m with wram := upd m.wram (addr - 0xC000) v }
  else if addr ≤ 0xFDFF then { m with wram := upd m.wram (addr - 0xE000) v }
  else if addr ≤ 0xFE9F then { m with oam := upd m.oam (addr - 0xFE00) v }
  else if addr ≤ 0xFEFF then m
  else if addr ≤ 0xFF7F then m.write_io_register addr v
  else if addr ≤ 0xFFFE then { m with hram := upd m.hram (addr - 0xFF80) v }
  else { m with interrupt_enable := v }

/-- Header-byte to controller-type decode inside `Memory::load_rom`. -/
def decode_mbc_type (b : Nat) : MBCType :=
  if b = 0x00 then MBCType.None
  else if 0x01 ≤ b ∧ b ≤ 0x03 then MBCType.MBC1
  else if 0x05 ≤ b ∧ b ≤ 0x06 then MBCType.MBC2
  else if 0x0F ≤ b ∧ b ≤ 0x13 then MBCType.MBC3
  else if 0x19 ≤ b ∧ b ≤ 0x1E then MBCType.MBC5
  else MBCType.None

/-- `Memory::load_rom` of `src/cpu/mmu.rs`.  The ROM image is a byte
function `rom` together with its length `len` (`rom_data.len()`). -/
def Memory.load_rom (m : Memory) (rom : Nat → Nat) (len : Nat) : Memory :=
  let m := if len > 0x147 then { m with mbc_type := decode_mbc_type (rom 0x147) } else m
  let bank_0_size := min len 0x4000
  let m := { m with rom_bank_0 := fun i => if i < bank_0_size then rom i else m.rom_bank_0 i }
  if len > 0x4000 then
    let bank_1_size := min (len - 0x4000) 0x4000
    { m with rom_bank_n := fun i => if i < bank_1_size then rom (0x4000 + i) else m.rom_bank_n i }
  else m

/-- Interrupt kinds of `src/cpu/hw/interrupts.rs`. -/
inductive Interrupt where
  | VBlank
  | LCDStat
  | Timer
  | Serial
  | Joypad
deriving DecidableEq, Repr

/-- Discriminant of the `Interrupt` enum (its bit index). -/
def Interrupt.idx : Interrupt → Nat
  | Interrupt.VBlank => 0
  | Interrupt.LCDStat => 1
  | Interrupt.Timer => 2
  | Interrupt.Serial => 3
  | Interrupt.Joypad => 4

/-- `highest_pending_interrupt` of `src/cpu/hw/interrupts.rs`.  The
source's `for i in 0..5` loop over `(pending & (1 << i)) != 0` is
unrolled. -/
def highest_pending_interrupt (mem : Memory) : Option Interrupt :=
  let ie := mem.interrupt_enable
  let iflag := mem.io_registers 0x0F
  let pending := ie &&& iflag
  if pending = 0 then none
  else if pending &&& (1 <<< 0) ≠ 0 then some Interrupt.VBlank
  else if pending &&& (1 <<< 1) ≠ 0 then some Interrupt.LCDStat
  else if pending &&& (1 <<< 2) ≠ 0 then some Interrupt.Timer
  else if pending &&& (1 <<< 3) ≠ 0 then some Interrupt.Serial
  else if pending &&& (1 <<< 4) ≠ 0 then some Interrupt.Joypad
  else none

/-- Register file of `src/cpu/registers.rs`. -/
structure Registers where
  a : Nat
  b : Nat
  c : Nat
  d : Nat
  e : Nat
  f : Nat
  h : Nat
  l : Nat
  sp : Nat
  pc : Nat

/-- `Registers::new` of `src/cpu/registers.rs`. -/
def Registers.new : Registers :=
  { a := 0, b := 0, c := 0, d := 0, e := 0, f := 0, h := 0, l := 0, sp := 0, pc := 0 }

/-- `Registers::get_af`. -/
def Registers.get_af (r : Registers) : Nat := (r.a <<< 8) ||| r.f

/-- `Registers::set_af`: `a = (value >> 8) as u8`, `f = (value & 0xF0) as u8`. -/
def Registers.set_af (r : Registers) (v : Nat) : Registers :=
  { r with a := (v >>> 8) &&& 0xFF, f := v &&& 0xF0 }

/-- `Registers::get_bc`. -/
def Registers.get_bc (r : Registers) : Nat := (r.b <<< 8) ||| r.c

/-- `Registers::set_bc`. -/
def Registers.set_bc (r : Registers) (v : Nat) : Registers :=
  { r with b := (v >>> 8) &&& 0xFF, c := v &&& 0xFF }

/-- `Registers::get_de`. -/
def Registers.get_de (r : Registers) : Nat := (r.d <<< 8) ||| r.e

/-- `Registers::set_de`. -/
def Registers.set_de (r : Registers) (v : Nat) : Registers :=
  { r with d := (v >>> 8) &&& 0xFF, e := v &&& 0xFF }

/-- `Registers::get_hl`. -/
def Registers.get_hl (r : Registers) : Nat := (r.h <<< 8) ||| r.l

/-- `Registers::set_hl`. -/
def Registers.set_hl (r : Registers) (v : Nat) : Registers :=
  { r with h := (v >>> 8) &&& 0xFF, l := v &&& 0xFF }

end Proto

namespace Core

/-- Flag bit of the carry flag (`CpuFlag::C`). -/
def flC : Nat := 0x10
/-- Flag bit of the half-carry flag (`CpuFlag::H`). -/
def flH : Nat := 0x20
/-- Flag bit of the subtract flag (`CpuFlag::N`). -/
def flN : Nat := 0x40
/-- Flag bit of the zero flag (`CpuFlag::Z`). -/
def flZ : Nat := 0x80

/-- Modelled from the spec: the register file used by `src/cpu.rs`
(`crate::register::Registers`, not part of the reviewed sources):
7 independent 8-bit registers, a flags byte whose low nibble is always
zero, and 16-bit `sp`/`pc`. -/
structure Regs where
  a : Nat
  b : Nat
  c : Nat
  d : Nat
  e : Nat
  h : Nat
  l : Nat
  f : Nat
  pc : Nat
  sp : Nat

/-- Modelled from the spec: flag update on the flags byte — set or clear
the given bit, keeping the low nibble grounded to zero. -/
def flagf (f m : Nat) (b : Bool) : Nat :=
  (if b then f ||| m else f &&& (0xFF ^^^ m)) &&& 0xF0

/-- Modelled from the spec: `Registers::flag`. -/
def Regs.flag (r : Regs) (m : Nat) (b : Bool) : Regs :=
  { r with f := flagf r.f m b }

/-- Modelled from the spec: `Registers::getflag` — test a flag bit. -/
def Regs.getflag (r : Regs) (m : Nat) : Bool :=
  r.f &&& m != 0

/-- Modelled from the spec: 16-bit pair read `hl()`. -/
def Regs.hl (r : Regs) : Nat := (r.h <<< 8) ||| r.l

/-- Modelled from the spec: 16-bit pair write `sethl`. -/
def Regs.sethl (r : Regs) (v : Nat) : Regs :=
  { r with h := (v >>> 8) &&& 0xFF, l := v &&& 0xFF }

/-- Modelled from the spec: 16-bit pair read `bc()`. -/
def Regs.bc (r : Regs) : Nat := (r.b <<< 8) ||| r.c

/-- Modelled from the spec: 16-bit pair write `setbc`. -/
def Regs.setbc (r : Regs) (v : Nat) : Regs :=
  { r with b := (v >>> 8) &&& 0xFF, c := v &&& 0xFF }

/-- Modelled from the spec: 16-bit pair read `de()`. -/
def Regs.de (r : Regs) : Nat := (r.d <<< 8) ||| r.e

/-- Modelled from the spec: 16-bit pair write `setde`. -/
def Regs.setde (r : Regs) (v : Nat) : Regs :=
  { r with d := (v >>> 8) &&& 0xFF, e := v &&& 0xFF }

/-- Modelled from the spec: 16-bit pair read `af()`. -/
def Regs.af (r : Regs) : Nat := (r.a <<< 8) ||| r.f

/-- Modelled from the spec: 16-bit pair write `setaf` — the low nibble of
the flags byte is always masked to zero. -/
def Regs.setaf (r : Regs) (v : Nat) : Regs :=
  { r with a := (v >>> 8) &&& 0xFF, f := v &&& 0xF0 }

/-- Modelled from the spec: `hli()` — return HL, then increment it
(wrapping at 16 bits). -/
def Regs.hli (r : Regs) : Nat × Regs :=
  (r.hl, r.sethl ((r.hl + 1) % 65536))

/-- Modelled from the spec: `hld()` — return HL, then decrement it
(wrapping at 16 bits). -/
def Regs.hld (r : Regs) : Nat × Regs :=
  (r.hl, r.sethl ((r.hl + 65535) % 65536))

/-- Modelled from the spec: the memory-mapped address space used by
`src/cpu.rs` (`crate::mmu::MMU`, not part of the reviewed sources),
abstracted to a flat byte store plus the interrupt-enable (`inte`) and
interrupt-request (`intf`) bytes and the double-speed toggle. -/
structure MMU where
  mem : Nat → Nat
  inte : Nat
  intf : Nat
  speed : Bool

/-- Modelled from the spec: byte read `rb`. -/
def rb (m : MMU) (a : Nat) : Nat := m.mem (a % 65536)

/-- Modelled from the spec: byte write `wb`. -/
def wb (m : MMU) (a v : Nat) : MMU :=
  { m with mem := upd m.mem (a % 65536) (v % 256) }

/-- Modelled from the spec: little-endian word read `rw`. -/
def rw (m : MMU) (a : Nat) : Nat :=
  rb m a ||| (rb m (a + 1) <<< 8)

/-- Modelled from the spec: little-endian word write `ww`. -/
def ww (m : MMU) (a v : Nat) : MMU :=
  wb (wb m a (v &&& 0xFF)) (a + 1) ((v >>> 8) &&& 0xFF)

/-- Modelled from the spec: `MMU::switch_speed` — double-speed toggle. -/
def switch_speed (m : MMU) : MMU := { m with speed := !m.speed }

/-- The `CPU` aggregate of `src/cpu.rs`: register file, address space,
halt state, one-shot halt-bug flag, interrupt master enable, and the
two enable/disable delay counters. -/
structure CPU where
  reg : Regs
  mmu : MMU
  halted : Bool
  halt_bug : Bool
  ime : Bool
  setdi : Nat
  setei : Nat

/-- `u8::trailing_zeros` restricted to 5-bit operands, as used on
`inte & intf & 0x1F` in `CPU::handleinterrupt` (a sentinel ≥ 5 is
returned when no low bit is set, mirroring the source's `n >= 5`
panic guard). -/
def tz (n : Nat) : Nat :=
  if n &&& 1 ≠ 0 then 0
  else if n &&& 2 ≠ 0 then 1
  else if n &&& 4 ≠ 0 then 2
  else if n &&& 8 ≠ 0 then 3
  else if n &&& 16 ≠ 0 then 4
  else 32

/-- `CPU::fetchbyte`: read the byte at `pc`; advance `pc` unless the
halt-bug flag is set, in which case clear the flag instead. -/
def fetchbyte (c : CPU) : Nat × CPU :=
  let b := rb c.mmu c.reg.pc
  if c.halt_bug then
    (b, { c with halt_bug := false })
  else
    (b, { c with reg := { c.reg with pc := (c.reg.pc + 1) % 65536 } })

/-- `CPU::fetchword`: read the word at `pc` and advance `pc` by 2. -/
def fetchword (c : CPU) : Nat × CPU :=
  let w := rw c.mmu c.reg.pc
  (w, { c with reg := { c.reg with pc := (c.reg.pc + 2) % 65536 } })

/-- `CPU::updateime`: step the `setdi`/`setei` countdowns, flipping
`ime` when a countdown reaches 1. -/
def updateime (c : CPU) : CPU :=
  let c :=
    match c.setdi with
    | 2 => { c with setdi := 1 }
    | 1 => { c with ime := false, setdi := 0 }
    | _ => { c with setdi := 0 }
  match c.setei with
  | 2 => { c with setei := 1 }
  | 1 => { c with ime := true, setei := 0 }
  | _ => { c with setei := 0 }

/-- `CPU::pushstack`. -/
def pushstack (c : CPU) (value : Nat) : CPU :=
  let sp := (c.reg.sp + 65534) % 65536
  let c := { c with reg := { c.reg with sp := sp } }
  { c with mmu := ww c.mmu sp value }

/-- `CPU::popstack`. -/
def popstack (c : CPU) : Nat × CPU :=
  let res := rw c.mmu c.reg.sp
  (res, { c with reg := { c.reg with sp := (c.reg.sp + 2) % 65536 } })

/-- `CPU::handleinterrupt`: returns 0 when no dispatch happens; on
dispatch clears `halted`, clears `ime`, clears the selected request
bit, pushes `pc` and jumps to the vector, returning 4 machine cycles.
The `n >= 5` panic is embedded as `none`. -/
def handleinterrupt (c : CPU) : Option (Nat × CPU) :=
  if c.ime = false ∧ c.halted = false then some (0, c)
  else
    let triggered := c.mmu.inte &&& c.mmu.intf &&& 0x1F
    if triggered = 0 then some (0, c)
    else
      let c := { c with halted := false }
      if c.ime = false then some (0, c)
      else
        let c := { c with ime := false }
        let n := tz triggered
        if 5 ≤ n then none
        else
          let c := { c with mmu := { c.mmu with intf := c.mmu.intf &&& (0xFF ^^^ (1 <<< n)) } }
          let pc := c.reg.pc
          let c := pushstack c pc
          let c := { c with reg := { c.reg with pc := 0x40 ||| (n <<< 3) } }
          some (4, c)

/-- `CPU::alu_add` (ADD / ADC): sets Z, H, N, C then the accumulator. -/
def alu_add (c : CPU) (b : Nat) (usec : Bool) : CPU :=
  let cv := if usec && c.reg.getflag flC then 1 else 0
  let a := c.reg.a
  let r := (a + b + cv) % 256
  let reg := c.reg.flag flZ (r == 0)
  let reg := reg.flag flH (decide ((a &&& 0xF) + (b &&& 0xF) + cv > 0xF))
  let reg := reg.flag flN false
  let reg := reg.flag flC (decide (a + b + cv > 0xFF))
  { c with reg := { reg with a := r } }

/-- `CPU::alu_sub` (SUB / SBC). -/
def alu_sub (c : CPU) (b : Nat) (usec : Bool) : CPU :=
  let cv := if usec && c.reg.getflag flC then 1 else 0
  let a := c.reg.a
  let r := (a + 512 - (b % 256) - cv) % 256
  let reg := c.reg.flag flZ (r == 0)
  let reg := reg.flag flH (decide ((a &&& 0x0F) < (b &&& 0x0F) + cv))
  let reg := reg.flag flN true
  let reg := reg.flag flC (decide (a < b + cv))
  { c with reg := { reg with a := r } }

/-- `CPU::alu_and`. -/
def alu_and (c : CPU) (b : Nat) : CPU :=
  let r := c.reg.a &&& b
  let reg := c.reg.flag flZ (r == 0)
  let reg := reg.flag flH true
  let reg := reg.flag flC false
  let reg := reg.flag flN false
  { c with reg := { reg with a := r } }

/-- `CPU::alu_inc`: returns the incremented value, setting Z, H, N. -/
def alu_inc (c : CPU) (a : Nat) : Nat × CPU :=
  let r := (a + 1) % 256
  let reg := c.reg.flag flZ (r == 0)
  let reg := reg.flag flH (decide ((a &&& 0x0F) + 1 > 0x0F))
  let reg := reg.flag flN false
  (r, { c with reg := reg })

/-- `CPU::alu_dec`: returns the decremented value, setting Z, H, N. -/
def alu_dec (c : CPU) (a : Nat) : Nat × CPU :=
  let r := (a + 255) % 256
  let reg := c.reg.flag flZ (r == 0)
  let reg := reg.flag flH (decide ((a &&& 0x0F) = 0))
  let reg := reg.flag flN true
  (r, { c with reg := reg })

/-- `CPU::alu_add16` (ADD HL,rr). -/
def alu_add16 (c : CPU) (b : Nat) : CPU :=
  let a := c.reg.hl
  let r := (a + b) % 65536
  let reg := c.reg.flag flH (decide ((a &&& 0x0FFF) + (b &&& 0x0FFF) > 0x0FFF))
  let reg := reg.flag flN false
  let reg := reg.flag flC (decide (a > 0xFFFF - b))
  { c with reg := reg.sethl r }

/-- `CPU::alu_add16imm` (signed-immediate 16-bit add, used by ADD SP,e
and LD HL,SP+e's sibling): fetches the byte itself. -/
def alu_add16imm (c : CPU) (a : Nat) : Nat × CPU :=
  let (b0, c) := fetchbyte c
  let b := if b0 < 0x80 then b0 else b0 + 0xFF00
  let reg := c.reg.flag flN false
  let reg := reg.flag flZ false
  let reg := reg.flag flH (decide ((a &&& 0x000F) + (b &&& 0x000F) > 0x000F))
  let reg := reg.flag flC (decide ((a &&& 0x00FF) + (b &&& 0x00FF) > 0x00FF))
  ((a + b) % 65536, { c with reg := reg })

/-- `CPU::alu_swap`. -/
def alu_swap (c : CPU) (a : Nat) : Nat × CPU :=
  let reg := c.reg.flag flZ (a == 0)
  let reg := reg.flag flC false
  let reg := reg.flag flH false
  let reg := reg.flag flN false
  (((a >>> 4) ||| (a <<< 4)) % 256, { c with reg := reg })

/-- `CPU::alu_srflagupdate`: shared flag update of the rotate/shift
helpers. -/
def alu_srflagupdate (c : CPU) (r : Nat) (cy : Bool) : CPU :=
  let reg := c.reg.flag flH false
  let reg := reg.flag flN false
  let reg := reg.flag flZ (r == 0)
  let reg := reg.flag flC cy
  { c with reg := reg }

/-- `CPU::alu_rlc`. -/
def alu_rlc (c : CPU) (a : Nat) : Nat × CPU :=
  let cy := a &&& 0x80 == 0x80
  let r := ((a <<< 1) ||| (if cy then 1 else 0)) % 256
  (r, alu_srflagupdate c r cy)

/-- `CPU::alu_rl`. -/
def alu_rl (c : CPU) (a : Nat) : Nat × CPU :=
  let cy := a &&& 0x80 == 0x80
  let r := ((a <<< 1) ||| (if c.reg.getflag flC then 1 else 0)) % 256
  (r, alu_srflagupdate c r cy)

/-- `CPU::alu_rrc`. -/
def alu_rrc (c : CPU) (a : Nat) : Nat × CPU :=
  let cy := a &&& 0x01 == 0x01
  let r := (a >>> 1) ||| (if cy then 0x80 else 0)
  (r, alu_srflagupdate c r cy)

/-- `CPU::alu_rr`. -/
def alu_rr (c : CPU) (a : Nat) : Nat × CPU :=
  let cy := a &&& 0x01 == 0x01
  let r := (a >>> 1) ||| (if c.reg.getflag flC then 0x80 else 0)
  (r, alu_srflagupdate c r cy)

/-- `CPU::alu_sla`. -/
def alu_sla (c : CPU) (a : Nat) : Nat × CPU :=
  let cy := a &&& 0x80 == 0x80
  let r := (a <<< 1) % 256
  (r, alu_srflagupdate c r cy)

/-- `CPU::alu_sra`. -/
def alu_sra (c : CPU) (a : Nat) : Nat × CPU :=
  let cy := a &&& 0x01 == 0x01
  let r := (a >>> 1) ||| (a &&& 0x80)
  (r, alu_srflagupdate c r cy)

/-- `CPU::alu_srl`. -/
def alu_srl (c : CPU) (a : Nat) : Nat × CPU :=
  let cy := a &&& 0x01 == 0x01
  let r := a >>> 1
  (r, alu_srflagupdate c r cy)

/-- `CPU::alu_bit`. -/
def alu_bit (c : CPU) (a b : Nat) : CPU :=
  let r := a &&& (1 <<< b) == 0
  let reg := c.reg.flag flN false
  let reg := reg.flag flH true
  let reg := reg.flag flZ r
  { c with reg := reg }

/-- `CPU::alu_daa`: decimal adjust, driven by the previously stored
C/H/N flags. -/
def alu_daa (c : CPU) : CPU :=
  let a := c.reg.a
  let adjust := if c.reg.getflag flC then 0x60 else 0x00
  let adjust := if c.reg.getflag flH then adjust ||| 0x06 else adjust
  let p : Nat × Nat :=
    if !c.reg.getflag flN then
      let adjust := if a &&& 0x0F > 0x09 then adjust ||| 0x06 else adjust
      let adjust := if a > 0x99 then adjust ||| 0x60 else adjust
      ((a + adjust) % 256, adjust)
    else
      ((a + 256 - adjust % 256) % 256, adjust)
  let reg := c.reg.flag flC (decide (p.2 ≥ 0x60))
  let reg := reg.flag flH false
  let reg := reg.flag flZ (p.1 == 0)
  { c with reg := { reg with a := p.1 } }

/-- Opcode handler type of `src/cpu.rs` (`OpHandler`): state and opcode
in, machine cycles out; `panic!`/`unreachable!` embedded as `none`. -/
def OpHandler : Type := CPU → Nat → Option (Nat × CPU)

/-- `op_00` (NOP). -/
def op_00 : OpHandler := fun c _ => some (1, c)

/-- `op_76` (HALT): sets `halted`; sets the halt-bug flag exactly when
`intf & inte & 0x1F` is nonzero (no `ime` condition in the source). -/
def op_76 : OpHandler := fun c _ =>
  some (1, { c with halted := true,
                    halt_bug := c.mmu.intf &&& c.mmu.inte &&& 0x1F != 0 })

/-- `op_ld_rr_d16`. -/
def op_ld_rr_d16 : OpHandler := fun c op =>
  let (v, c) := fetchword c
  match op with
  | 0x01 => some (3, { c with reg := c.reg.setbc v })
  | 0x11 => some (3, { c with reg := c.reg.setde v })
  | 0x21 => some (3, { c with reg := c.reg.sethl v })
  | 0x31 => some (3, { c with reg := { c.reg with sp := v } })
  | _ => none

/-- `op_inc_r`. -/
def op_inc_r : OpHandler := fun c op =>
  match op with
  | 0x04 => let (r, c) := alu_inc c c.reg.b; some (1, { c with reg := { c.reg with b := r } })
  | 0x0C => let (r, c) := alu_inc c c.reg.c; some (1, { c with reg := { c.reg with c := r } })
  | 0x14 => let (r, c) := alu_inc c c.reg.d; some (1, { c with reg := { c.reg with d := r } })
  | 0x1C => let (r, c) := alu_inc c c.reg.e; some (1, { c with reg := { c.reg with e := r } })
  | 0x24 => let (r, c) := alu_inc c c.reg.h; some (1, { c with reg := { c.reg with h := r } })
  | 0x2C => let (r, c) := alu_inc c c.reg.l; some (1, { c with reg := { c.reg with l := r } })
  | 0x3C => let (r, c) := alu_inc c c.reg.a; some (1, { c with reg := { c.reg with a := r } })
  | _ => none

/-- `op_dec_r`. -/
def op_dec_r : OpHandler := fun c op =>
  match op with
  | 0x05 => let (r, c) := alu_dec c c.reg.b; some (1, { c with reg := { c.reg with b := r } })
  | 0x0D => let (r, c) := alu_dec c c.reg.c; some (1, { c with reg := { c.reg with c := r } })
  | 0x15 => let (r, c) := alu_dec c c.reg.d; some (1, { c with reg := { c.reg with d := r } })
  | 0x1D => let (r, c) := alu_dec c c.reg.e; some (1, { c with reg := { c.reg with e := r } })
  | 0x25 => let (r, c) := alu_dec c c.reg.h; some (1, { c with reg := { c.reg with h := r } })
  | 0x2D => let (r, c) := alu_dec c c.reg.l; some (1, { c with reg := { c.reg with l := r } })
  | 0x3D => let (r, c) := alu_dec c c.reg.a; some (1, { c with reg := { c.reg with a := r } })
  | _ => none

/-- `op_ld_r_d8`. -/
def op_ld_r_d8 : OpHandler := fun c op =>
  let (v, c) := fetchbyte c
  match op with
  | 0x06 => some (2, { c with reg := { c.reg with b := v } })
  | 0x0E => some (2, { c with reg := { c.reg with c := v } })
  | 0x16 => some (2, { c with reg := { c.reg with d := v } })
  | 0x1E => some (2, { c with reg := { c.reg with e := v } })
  | 0x26 => some (2, { c with reg := { c.reg with h := v } })
  | 0x2E => some (2, { c with reg := { c.reg with l := v } })
  | 0x3E => some (2, { c with reg := { c.reg with a := v } })
  | _ => none

/-- `op_rot_a` (RLCA/RRCA/RLA/RRA): rotate A, then force Z to false. -/
def op_rot_a : OpHandler := fun c op =>
  let step : Option CPU :=
    match op with
    | 0x07 => let (r, c) := alu_rlc c c.reg.a; some { c with reg := { c.reg with a := r } }
    | 0x0F => let (r, c) := alu_rrc c c.reg.a; some { c with reg := { c.reg with a := r } }
    | 0x17 => let (r, c) := alu_rl c c.reg.a; some { c with reg := { c.reg with a := r } }
    | 0x1F => let (r, c) := alu_rr c c.reg.a; some { c with reg := { c.reg with a := r } }
    | _ => none
  match step with
  | some c => some (1, { c with reg := c.reg.flag flZ false })
  | none => none

/-- `op_ld_r_r` (the 0x40–0x7F block, HALT excluded): dest in bits 3–5,
src in bits 0–2, code 6 meaning memory-indirect through HL.  The cycle
cost checks only `dest == 6`. -/
def op_ld_r_r : OpHandler := fun c op =>
  let hl := c.reg.hl
  let dest := (op >>> 3) &&& 0x07
  let src := op &&& 0x07
  -- source codes: 0..5 registers, 6 -> (HL), 7 -> A (codes > 7 unreachable: masked with 0x07)
  let val :=
    match src with
    | 0 => c.reg.b
    | 1 => c.reg.c
    | 2 => c.reg.d
    | 3 => c.reg.e
    | 4 => c.reg.h
    | 5 => c.reg.l
    | 6 => rb c.mmu hl
    | _ => c.reg.a
  let c :=
    match dest with
    | 0 => { c with reg := { c.reg with b := val } }
    | 1 => { c with reg := { c.reg with c := val } }
    | 2 => { c with reg := { c.reg with d := val } }
    | 3 => { c with reg := { c.reg with e := val } }
    | 4 => { c with reg := { c.reg with h := val } }
    | 5 => { c with reg := { c.reg with l := val } }
    | 6 => { c with mmu := wb c.mmu hl val }
    | _ => { c with reg := { c.reg with a := val } }
  some (if dest = 6 then 2 else 1, c)

/-- `op_ld_hl_d8` (LD (HL),d8). -/
def op_ld_hl_d8 : OpHandler := fun c _ =>
  let (v, c) := fetchbyte c
  let hl := c.reg.hl
  some (3, { c with mmu := wb c.mmu hl v })

/-- `read_reg_by_code` of `src/cpu.rs` (codes > 7 unreachable: callers
mask with 0x07; code 7 -> A). -/
def read_reg_by_code (c : CPU) (code : Nat) : Nat :=
  match code with
  | 0 => c.reg.b
  | 1 => c.reg.c
  | 2 => c.reg.d
  | 3 => c.reg.e
  | 4 => c.reg.h
  | 5 => c.reg.l
  | 6 => rb c.mmu c.reg.hl
  | _ => c.reg.a

/-- `op_alu_r` (0x80–0xBF): ADD/ADC/SUB/SBC/AND/XOR/OR/CP on a register
or (HL); cost 2 for the (HL) form, 1 otherwise. -/
def op_alu_r : OpHandler := fun c op =>
  let opclass := (op >>> 3) &&& 0x07
  let src := op &&& 0x07
  let v := read_reg_by_code c src
  let c :=
    match opclass with
    | 0 => alu_add c v false
    | 1 => alu_add c v true
    | 2 => alu_sub c v false
    | 3 => alu_sub c v true
    | 4 => alu_and c v
    | 5 =>
        let a := c.reg.a ^^^ v
        let reg := { c.reg with a := a }
        let reg := reg.flag flZ (a == 0)
        let reg := reg.flag flN false
        let reg := reg.flag flH false
        let reg := reg.flag flC false
        { c with reg := reg }
    | 6 =>
        let a := c.reg.a ||| v
        let reg := { c.reg with a := a }
        let reg := reg.flag flZ (a == 0)
        let reg := reg.flag flN false
        let reg := reg.flag flH false
        let reg := reg.flag flC false
        { c with reg := reg }
    | _ =>
        let a := c.reg.a
        let r := (a + 256 - v % 256) % 256
        let reg := c.reg.flag flZ (r == 0)
        let reg := reg.flag flN true
        let reg := reg.flag flH (decide ((a &&& 0x0F) < (v &&& 0x0F)))
        let reg := reg.flag flC (decide (a < v))
        { c with reg := reg }
  some (if src = 6 then 2 else 1, c)

/-- `op_alu_d8`: the immediate forms of the eight ALU operations. -/
def op_alu_d8 : OpHandler := fun c op =>
  let (v, c) := fetchbyte c
  match op with
  | 0xC6 => some (2, alu_add c v false)
  | 0xCE => some (2, alu_add c v true)
  | 0xD6 => some (2, alu_sub c v false)
  | 0xDE => some (2, alu_sub c v true)
  | 0xE6 => some (2, alu_and c v)
  | 0xEE =>
      let a := c.reg.a ^^^ v
      let reg := { c.reg with a := a }
      let reg := reg.flag flZ (a == 0)
      let reg := reg.flag flN false
      let reg := reg.flag flH false
      let reg := reg.flag flC false
      some (2, { c with reg := reg })
  | 0xF6 =>
      let a := c.reg.a ||| v
      let reg := { c.reg with a := a }
      let reg := reg.flag flZ (a == 0)
      let reg := reg.flag flN false
      let reg := reg.flag flH false
      let reg := reg.flag flC false
      some (2, { c with reg := reg })
  | 0xFE =>
      let a := c.reg.a
      let r := (a + 256 - v % 256) % 256
      let reg := c.reg.flag flZ (r == 0)
      let reg := reg.flag flN true
      let reg := reg.flag flH (decide ((a &&& 0x0F) < (v &&& 0x0F)))
      let reg := reg.flag flC (decide (a < v))
      some (2, { c with reg := reg })
  | _ => none

/-- `op_inc_rr`. -/
def op_inc_rr : OpHandler := fun c op =>
  match op with
  | 0x03 => some (2, { c with reg := c.reg.setbc ((c.reg.bc + 1) % 65536) })
  | 0x13 => some (2, { c with reg := c.reg.setde ((c.reg.de + 1) % 65536) })
  | 0x23 => some (2, { c with reg := c.reg.sethl ((c.reg.hl + 1) % 65536) })
  | 0x33 => some (2, { c with reg := { c.reg with sp := (c.reg.sp + 1) % 65536 } })
  | _ => none

/-- `op_dec_rr`. -/
def op_dec_rr : OpHandler := fun c op =>
  match op with
  | 0x0B => some (2, { c with reg := c.reg.setbc ((c.reg.bc + 65535) % 65536) })
  | 0x1B => some (2, { c with reg := c.reg.setde ((c.reg.de + 65535) % 65536) })
  | 0x2B => some (2, { c with reg := c.reg.sethl ((c.reg.hl + 65535) % 65536) })
  | 0x3B => some (2, { c with reg := { c.reg with sp := (c.reg.sp + 65535) % 65536 } })
  | _ => none

/-- `op_add_hl_rr`. -/
def op_add_hl_rr : OpHandler := fun c op =>
  match op with
  | 0x09 => some (2, alu_add16 c c.reg.bc)
  | 0x19 => some (2, alu_add16 c c.reg.de)
  | 0x29 => some (2, alu_add16 c c.reg.hl)
  | 0x39 => some (2, alu_add16 c c.reg.sp)
  | _ => none

/-- `op_push_rr`. -/
def op_push_rr : OpHandler := fun c op =>
  let v? : Option Nat :=
    match op with
    | 0xC5 => some c.reg.bc
    | 0xD5 => some c.reg.de
    | 0xE5 => some c.reg.hl
    | 0xF5 => some c.reg.af
    | _ => none
  match v? with
  | none => none
  | some v =>
      let sp := (c.reg.sp + 65535) % 65536
      let c := { c with reg := { c.reg with sp := sp }, mmu := wb c.mmu sp ((v >>> 8) &&& 0xFF) }
      let sp := (c.reg.sp + 65535) % 65536
      let c := { c with reg := { c.reg with sp := sp }, mmu := wb c.mmu sp (v &&& 0xFF) }
      some (4, c)

/-- `op_pop_rr` (POP AF masks the popped value with 0xFFF0). -/
def op_pop_rr : OpHandler := fun c op =>
  let lo := rb c.mmu c.reg.sp
  let c := { c with reg := { c.reg with sp := (c.reg.sp + 1) % 65536 } }
  let hi := rb c.mmu c.reg.sp
  let c := { c with reg := { c.reg with sp := (c.reg.sp + 1) % 65536 } }
  let v := (hi <<< 8) ||| lo
  match op with
  | 0xC1 => some (3, { c with reg := c.reg.setbc v })
  | 0xD1 => some (3, { c with reg := c.reg.setde v })
  | 0xE1 => some (3, { c with reg := c.reg.sethl v })
  | 0xF1 => some (3, { c with reg := c.reg.setaf (v &&& 0xFFF0) })
  | _ => none

/-- `op_store_nn_sp` (LD (nn),SP). -/
def op_store_nn_sp : OpHandler := fun c _ =>
  let (a, c) := fetchword c
  some (5, { c with mmu := ww c.mmu a c.reg.sp })

/-- `op_ld_a_nn` (LD A,(nn)). -/
def op_ld_a_nn : OpHandler := fun c _ =>
  let (a, c) := fetchword c
  some (4, { c with reg := { c.reg with a := rb c.mmu a } })

/-- `op_ld_nn_a` (LD (nn),A). -/
def op_ld_nn_a : OpHandler := fun c _ =>
  let (a, c) := fetchword c
  some (4, { c with mmu := wb c.mmu a c.reg.a })

/-- `op_ldh` (the 0xFF00-page loads). -/
def op_ldh : OpHandler := fun c op =>
  match op with
  | 0xE0 =>
      let (off, c) := fetchbyte c
      some (3, { c with mmu := wb c.mmu (0xFF00 + off) c.reg.a })
  | 0xF0 =>
      let (off, c) := fetchbyte c
      some (3, { c with reg := { c.reg with a := rb c.mmu (0xFF00 + off) } })
  | 0xE2 => some (2, { c with mmu := wb c.mmu (0xFF00 + c.reg.c) c.reg.a })
  | 0xF2 => some (2, { c with reg := { c.reg with a := rb c.mmu (0xFF00 + c.reg.c) } })
  | _ => none

/-- `op_ld_hl_sp_e` (LD HL,SP+e). -/
def op_ld_hl_sp_e : OpHandler := fun c _ =>
  let (e0, c) := fetchbyte c
  let e := if e0 < 0x80 then e0 else e0 + 0xFF00
  let sp := c.reg.sp
  let r := (sp + e) % 65536
  let reg := c.reg.flag flZ false
  let reg := reg.flag flN false
  let reg := reg.flag flH (decide ((sp ^^^ e ^^^ r) &&& 0x10 ≠ 0))
  let reg := reg.flag flC (decide ((sp ^^^ e ^^^ r) &&& 0x100 ≠ 0))
  some (3, { c with reg := reg.sethl r })

/-- `op_ld_sp_hl` (LD SP,HL). -/
def op_ld_sp_hl : OpHandler := fun c _ =>
  some (2, { c with reg := { c.reg with sp := c.reg.hl } })

/-- `op_jr` (relative jumps, 3 cycles taken / 2 untaken). -/
def op_jr : OpHandler := fun c op =>
  let (b, c) := fetchbyte c
  let off := if b < 0x80 then b else b + 0xFF00
  let take? : Option Bool :=
    match op with
    | 0x18 => some true
    | 0x20 => some (!c.reg.getflag flZ)
    | 0x28 => some (c.reg.getflag flZ)
    | 0x30 => some (!c.reg.getflag flC)
    | 0x38 => some (c.reg.getflag flC)
    | _ => none
  match take? with
  | none => none
  | some take =>
      if take then some (3, { c with reg := { c.reg with pc := (c.reg.pc + off) % 65536 } })
      else some (2, c)

/-- `op_jp` (absolute jumps, including JP (HL)). -/
def op_jp : OpHandler := fun c op =>
  match op with
  | 0xE9 => some (1, { c with reg := { c.reg with pc := c.reg.hl } })
  | 0xC3 =>
      let (a, c) := fetchword c
      some (4, { c with reg := { c.reg with pc := a } })
  | 0xC2 | 0xCA | 0xD2 | 0xDA =>
      let (a, c) := fetchword c
      let cond :=
        match op with
        | 0xC2 => !c.reg.getflag flZ
        | 0xCA => c.reg.getflag flZ
        | 0xD2 => !c.reg.getflag flC
        | _ => c.reg.getflag flC
      if cond then some (4, { c with reg := { c.reg with pc := a } })
      else some (3, c)
  | _ => none

/-- `op_call` (6 cycles taken / 3 untaken). -/
def op_call : OpHandler := fun c op =>
  let (addr, c) := fetchword c
  let cond? : Option Bool :=
    match op with
    | 0xCD => some true
    | 0xC4 => some (!c.reg.getflag flZ)
    | 0xCC => some (c.reg.getflag flZ)
    | 0xD4 => some (!c.reg.getflag flC)
    | 0xDC => some (c.reg.getflag flC)
    | _ => none
  match cond? with
  | none => none
  | some cond =>
      if cond then
        let pc := c.reg.pc
        let sp := (c.reg.sp + 65535) % 65536
        let c := { c with reg := { c.reg with sp := sp }, mmu := wb c.mmu sp ((pc >>> 8) &&& 0xFF) }
        let sp := (c.reg.sp + 65535) % 65536
        let c := { c with reg := { c.reg with sp := sp }, mmu := wb c.mmu sp (pc &&& 0xFF) }
        some (6, { c with reg := { c.reg with pc := addr } })
      else some (3, c)

/-- `op_ret` (RET / RETI / conditional RET; RETI sets `setei = 1`). -/
def op_ret : OpHandler := fun c op =>
  match op with
  | 0xC9 =>
      let lo := rb c.mmu c.reg.sp
      let c := { c with reg := { c.reg with sp := (c.reg.sp + 1) % 65536 } }
      let hi := rb c.mmu c.reg.sp
      let c := { c with reg := { c.reg with sp := (c.reg.sp + 1) % 65536 } }
      some (4, { c with reg := { c.reg with pc := (hi <<< 8) ||| lo } })
  | 0xD9 =>
      let lo := rb c.mmu c.reg.sp
      let c := { c with reg := { c.reg with sp := (c.reg.sp + 1) % 65536 } }
      let hi := rb c.mmu c.reg.sp
      let c := { c with reg := { c.reg with sp := (c.reg.sp + 1) % 65536 } }
      some (4, { c with reg := { c.reg with pc := (hi <<< 8) ||| lo }, setei := 1 })
  | 0xC0 | 0xC8 | 0xD0 | 0xD8 =>
      let cond :=
        match op with
        | 0xC0 => !c.reg.getflag flZ
        | 0xC8 => c.reg.getflag flZ
        | 0xD0 => !c.reg.getflag flC
        | _ => c.reg.getflag flC
      if cond then
        let lo := rb c.mmu c.reg.sp
        let c := { c with reg := { c.reg with sp := (c.reg.sp + 1) % 65536 } }
        let hi := rb c.mmu c.reg.sp
        let c := { c with reg := { c.reg with sp := (c.reg.sp + 1) % 65536 } }
        some (5, { c with reg := { c.reg with pc := (hi <<< 8) ||| lo } })
      else some (2, c)
  | _ => none

/-- `op_rst`. -/
def op_rst : OpHandler := fun c op =>
  let target? : Option Nat :=
    match op with
    | 0xC7 => some 0x00
    | 0xCF => some 0x08
    | 0xD7 => some 0x10
    | 0xDF => some 0x18
    | 0xE7 => some 0x20
    | 0xEF => some 0x28
    | 0xF7 => some 0x30
    | 0xFF => some 0x38
    | _ => none
  match target? with
  | none => none
  | some target =>
      let pc := c.reg.pc
      let sp := (c.reg.sp + 65535) % 65536
      let c := { c with reg := { c.reg with sp := sp }, mmu := wb c.mmu sp ((pc >>> 8) &&& 0xFF) }
      let sp := (c.reg.sp + 65535) % 65536
      let c := { c with reg := { c.reg with sp := sp }, mmu := wb c.mmu sp (pc &&& 0xFF) }
      some (4, { c with reg := { c.reg with pc := target } })

/-- `op_misc` (DAA, CPL, SCF, CCF, DI, EI, STOP).  DI clears `ime`
immediately; EI sets the two-step `setei` countdown. -/
def op_misc : OpHandler := fun c op =>
  match op with
  | 0x27 => some (1, alu_daa c)
  | 0x2F =>
      let reg := { c.reg with a := 0xFF - (c.reg.a % 256) }
      let reg := reg.flag flH true
      let reg := reg.flag flN true
      some (1, { c with reg := reg })
  | 0x37 =>
      let reg := c.reg.flag flC true
      let reg := reg.flag flH false
      let reg := reg.flag flN false
      some (1, { c with reg := reg })
  | 0x3F =>
      let cy := c.reg.getflag flC
      let reg := c.reg.flag flC (!cy)
      let reg := reg.flag flH false
      let reg := reg.flag flN false
      some (1, { c with reg := reg })
  | 0xF3 => some (1, { c with ime := false })
  | 0xFB => some (1, { c with setei := 2 })
  | 0x10 => some (1, { c with mmu := switch_speed c.mmu })
  | _ => none

/-- `op_ld_a_rr_ind` (LD A,(BC) / LD A,(DE)). -/
def op_ld_a_rr_ind : OpHandler := fun c op =>
  match op with
  | 0x0A => some (2, { c with reg := { c.reg with a := rb c.mmu c.reg.bc } })
  | 0x1A => some (2, { c with reg := { c.reg with a := rb c.mmu c.reg.de } })
  | _ => none

/-- `op_ld_rr_ind_a` (LD (BC),A / LD (DE),A). -/
def op_ld_rr_ind_a : OpHandler := fun c op =>
  match op with
  | 0x02 => some (2, { c with mmu := wb c.mmu c.reg.bc c.reg.a })
  | 0x12 => some (2, { c with mmu := wb c.mmu c.reg.de c.reg.a })
  | _ => none

/-- `op_ld_hl_incdec_a` (LD (HL±),A / LD A,(HL±)). -/
def op_ld_hl_incdec_a : OpHandler := fun c op =>
  match op with
  | 0x22 =>
      let (hl, reg) := c.reg.hli
      some (2, { c with reg := reg, mmu := wb c.mmu hl c.reg.a })
  | 0x2A =>
      let (hl, reg) := c.reg.hli
      some (2, { c with reg := { reg with a := rb c.mmu hl } })
  | 0x32 =>
      let (hl, reg) := c.reg.hld
      some (2, { c with reg := reg, mmu := wb c.mmu hl c.reg.a })
  | 0x3A =>
      let (hl, reg) := c.reg.hld
      some (2, { c with reg := { reg with a := rb c.mmu hl } })
  | _ => none

/-- `op_incdec_hl_mem` (INC (HL) / DEC (HL)). -/
def op_incdec_hl_mem : OpHandler := fun c op =>
  let addr := c.reg.hl
  let v := rb c.mmu addr
  let (v2, c) := if op = 0x34 then alu_inc c v else alu_dec c v
  some (3, { c with mmu := wb c.mmu addr v2 })

/-- `cb_rot`: the rotate/shift/swap block of the CB-prefixed table
(cost 4 for the (HL) form, 2 otherwise). -/
def cb_rot : OpHandler := fun c op =>
  let target := op &&& 0x07
  let group := op >>> 3
  -- target codes: 0..5 registers, 6 -> (HL), 7 -> A (codes > 7 unreachable: masked with 0x07)
  let v :=
    match target with
    | 0 => c.reg.b
    | 1 => c.reg.c
    | 2 => c.reg.d
    | 3 => c.reg.e
    | 4 => c.reg.h
    | 5 => c.reg.l
    | 6 => rb c.mmu c.reg.hl
    | _ => c.reg.a
  let step : Option (Nat × CPU) :=
    match group with
    | 0 => some (alu_rlc c v)
    | 1 => some (alu_rrc c v)
    | 2 => some (alu_rl c v)
    | 3 => some (alu_rr c v)
    | 4 => some (alu_sla c v)
    | 5 => some (alu_sra c v)
    | 6 => some (alu_swap c v)
    | 7 => some (alu_srl c v)
    | _ => none
  match step with
  | none => none
  | some (v, c) =>
      if target = 6 then some (4, { c with mmu := wb c.mmu c.reg.hl v })
      else
        let c :=
          match target with
          | 0 => { c with reg := { c.reg with b := v } }
          | 1 => { c with reg := { c.reg with c := v } }
          | 2 => { c with reg := { c.reg with d := v } }
          | 3 => { c with reg := { c.reg with e := v } }
          | 4 => { c with reg := { c.reg with h := v } }
          | 5 => { c with reg := { c.reg with l := v } }
          | 7 => { c with reg := { c.reg with a := v } }
          | _ => c
        some (2, c)

/-- `cb_bit` (cost 3 for the (HL) form, 2 otherwise). -/
def cb_bit : OpHandler := fun c op =>
  let bit := (op >>> 3) &&& 0x07
  let target := op &&& 0x07
  let v :=
    if target = 6 then rb c.mmu c.reg.hl
    else
      match target with
      | 0 => c.reg.b
      | 1 => c.reg.c
      | 2 => c.reg.d
      | 3 => c.reg.e
      | 4 => c.reg.h
      | 5 => c.reg.l
      | _ => c.reg.a
  let c := alu_bit c v bit
  some (if target = 6 then 3 else 2, c)

/-- `cb_res` (cost 4 for the (HL) form, 2 otherwise). -/
def cb_res : OpHandler := fun c op =>
  let bit := (op >>> 3) &&& 0x07
  let mask := 0xFF ^^^ (1 <<< bit)
  let target := op &&& 0x07
  if target = 6 then
    let addr := c.reg.hl
    let v := rb c.mmu addr &&& mask
    some (4, { c with mmu := wb c.mmu addr v })
  else
    let c :=
      match target with
      | 0 => { c with reg := { c.reg with b := c.reg.b &&& mask } }
      | 1 => { c with reg := { c.reg with c := c.reg.c &&& mask } }
      | 2 => { c with reg := { c.reg with d := c.reg.d &&& mask } }
      | 3 => { c with reg := { c.reg with e := c.reg.e &&& mask } }
      | 4 => { c with reg := { c.reg with h := c.reg.h &&& mask } }
      | 5 => { c with reg := { c.reg with l := c.reg.l &&& mask } }
      | _ => { c with reg := { c.reg with a := c.reg.a &&& mask } }
    some (2, c)

/-- `cb_set` (cost 4 for the (HL) form, 2 otherwise). -/
def cb_set : OpHandler := fun c op =>
  let bit := (op >>> 3) &&& 0x07
  let mask := 1 <<< bit
  let target := op &&& 0x07
  if target = 6 then
    let addr := c.reg.hl
    let v := rb c.mmu addr ||| mask
    some (4, { c with mmu := wb c.mmu addr v })
  else
    let c :=
      match target with
      | 0 => { c with reg := { c.reg with b := c.reg.b ||| mask } }
      | 1 => { c with reg := { c.reg with c := c.reg.c ||| mask } }
      | 2 => { c with reg := { c.reg with d := c.reg.d ||| mask } }
      | 3 => { c with reg := { c.reg with e := c.reg.e ||| mask } }
      | 4 => { c with reg := { c.reg with h := c.reg.h ||| mask } }
      | 5 => { c with reg := { c.reg with l := c.reg.l ||| mask } }
      | _ => { c with reg := { c.reg with a := c.reg.a ||| mask } }
    some (2, c)

/-- `CB_TABLE`: the four quadrants of the CB-prefixed table. -/
def CB_TABLE (i : Nat) : OpHandler :=
  if i < 0x40 then cb_rot
  else if i < 0x80 then cb_bit
  else if i < 0xC0 then cb_res
  else cb_set

/-- `op_cb`: fetch the CB-prefixed opcode and dispatch. -/
def op_cb : OpHandler := fun c _ =>
  let (opc, c) := fetchbyte c
  CB_TABLE opc c opc

/-- `op_e8` (ADD SP,e8), the closure installed at table slot 0xE8. -/
def op_e8 : OpHandler := fun c _ =>
  let (sp, c) := alu_add16imm c c.reg.sp
  some (4, { c with reg := { c.reg with sp := sp } })

/-- `op_fallback`: `panic!("Unimplemented opcode ...")`. -/
def op_fallback : OpHandler := fun _ _ => none

/-- `OPCODE_TABLE` of `src/cpu.rs`, rendered as a function: each branch
mirrors one group of slot assignments of the source's table builder;
unassigned slots fall through to `op_fallback`. -/
def OPCODE_TABLE (op : Nat) : OpHandler :=
  if op = 0x00 then op_00
  else if op = 0x76 then op_76
  else if op = 0x01 ∨ op = 0x11 ∨ op = 0x21 ∨ op = 0x31 then op_ld_rr_d16
  else if op = 0x04 ∨ op = 0x0C ∨ op = 0x14 ∨ op = 0x1C ∨ op = 0x24 ∨ op = 0x2C ∨ op = 0x3C then op_inc_r
  else if op = 0x05 ∨ op = 0x0D ∨ op = 0x15 ∨ op = 0x1D ∨ op = 0x25 ∨ op = 0x2D ∨ op = 0x3D then op_dec_r
  else if op = 0x06 ∨ op = 0x0E ∨ op = 0x16 ∨ op = 0x1E ∨ op = 0x26 ∨ op = 0x2E ∨ op = 0x3E then op_ld_r_d8
  else if op = 0x07 ∨ op = 0x0F ∨ op = 0x17 ∨ op = 0x1F then op_rot_a
  else if op = 0x03 ∨ op = 0x13 ∨ op = 0x23 ∨ op = 0x33 then op_inc_rr
  else if op = 0x0B ∨ op = 0x1B ∨ op = 0x2B ∨ op = 0x3B then op_dec_rr
  else if op = 0x09 ∨ op = 0x19 ∨ op = 0x29 ∨ op = 0x39 then op_add_hl_rr
  else if op = 0x36 then op_ld_hl_d8
  else if op = 0xC5 ∨ op = 0xD5 ∨ op = 0xE5 ∨ op = 0xF5 then op_push_rr
  else if op = 0xC1 ∨ op = 0xD1 ∨ op = 0xE1 ∨ op = 0xF1 then op_pop_rr
  else if op = 0x08 then op_store_nn_sp
  else if op = 0xFA then op_ld_a_nn
  else if op = 0xEA then op_ld_nn_a
  else if op = 0xE0 ∨ op = 0xF0 ∨ op = 0xE2 ∨ op = 0xF2 then op_ldh
  else if op = 0xF8 then op_ld_hl_sp_e
  else if op = 0xF9 then op_ld_sp_hl
  else if 0x40 ≤ op ∧ op ≤ 0x7F then op_ld_r_r
  else if 0x80 ≤ op ∧ op ≤ 0xBF then op_alu_r
  else if op = 0xC6 ∨ op = 0xCE ∨ op = 0xD6 ∨ op = 0xDE ∨ op = 0xE6 ∨ op = 0xEE ∨ op = 0xF6 ∨ op = 0xFE then op_alu_d8
  else if op = 0x18 ∨ op = 0x20 ∨ op = 0x28 ∨ op = 0x30 ∨ op = 0x38 then op_jr
  else if op = 0xC3 ∨ op = 0xC2 ∨ op = 0xCA ∨ op = 0xD2 ∨ op = 0xDA ∨ op = 0xE9 then op_jp
  else if op = 0xCD ∨ op = 0xC4 ∨ op = 0xCC ∨ op = 0xD4 ∨ op = 0xDC then op_call
  else if op = 0xC9 ∨ op = 0xD9 ∨ op = 0xC0 ∨ op = 0xC8 ∨ op = 0xD0 ∨ op = 0xD8 then op_ret
  else if op = 0xC7 ∨ op = 0xCF ∨ op = 0xD7 ∨ op = 0xDF ∨ op = 0xE7 ∨ op = 0xEF ∨ op = 0xF7 ∨ op = 0xFF then op_rst
  else if op = 0x27 ∨ op = 0x2F ∨ op = 0x37 ∨ op = 0x3F ∨ op = 0xF3 ∨ op = 0xFB ∨ op = 0x10 then op_misc
  else if op = 0x0A ∨ op = 0x1A then op_ld_a_rr_ind
  else if op = 0x02 ∨ op = 0x12 then op_ld_rr_ind_a
  else if op = 0x22 ∨ op = 0x2A ∨ op = 0x32 ∨ op = 0x3A then op_ld_hl_incdec_a
  else if op = 0x34 ∨ op = 0x35 then op_incdec_hl_mem
  else if op = 0xCB then op_cb
  else if op = 0xE8 then op_e8
  else op_fallback

/-- `CPU::call`: fetch one opcode byte and dispatch through the table. -/
def call (c : CPU) : Option (Nat × CPU) :=
  let (opcode, c) := fetchbyte c
  OPCODE_TABLE opcode c opcode

/-- `CPU::docycle`: enable-delay update, then interrupt dispatch, then
halted no-op or fetch-and-execute; returns machine cycles. -/
def docycle (c : CPU) : Option (Nat × CPU) :=
  let c := updateime c
  match handleinterrupt c with
  | none => none
  | some (0, c) => if c.halted then some (1, c) else call c
  | some (n, c) => some (n, c)

/-- The `Device` aggregate of `src/device.rs` (the serialization path
field kept as opaque data). -/
structure Device where
  cpu : CPU
  save_state : Option String

/-- `Device::load_state_slot` of `src/device.rs`: `file` is the result
of reading the slot's file (`none` when the read fails), `decode` is
the `bincode` deserializer of the whole CPU aggregate (an external
crate, abstracted as a function).  The live `cpu` is replaced only
when decoding succeeds; otherwise an error is returned and the device
is left untouched. -/
def load_state_slot (dev : Device) (decode : List Nat → Option CPU)
    (file : Option (List Nat)) : Except String Unit × Device :=
  match file with
  | some data =>
      match decode data with
      | some cpu => (Except.ok (), { dev with cpu := cpu })
      | none => (Except.error "Failed to parse save state", dev)
  | none => (Except.error "Save state file does not exist", dev)

end Core

/-! ### Spec-side definitions and concrete test fixtures -/

/-- A concrete all-zero register file for test states. -/
def regsZero : Core.Regs :=
  { a := 0, b := 0, c := 0, d := 0, e := 0, h := 0, l := 0, f := 0, pc := 0, sp := 0 }

/-- A concrete baseline CPU state for test states. -/
def cpuZero : Core.CPU :=
  { reg := regsZero
    mmu := { mem := fun _ => 0, inte := 0, intf := 0, speed := false }
    halted := false, halt_bug := false, ime := true, setdi := 0, setei := 0 }

/-- Concrete state: an interrupt is pending (`inte = intf = 1`) while
the master-enable flag is `true`. -/
def haltPendingCPU : Core.CPU :=
  { cpuZero with
    reg := { regsZero with pc := 0x100, sp := 0xFFFE }
    mmu := { mem := fun _ => 0, inte := 1, intf := 1, speed := false } }

/-- Concrete state with the halt-bug flag set. -/
def bugFetchCPU : Core.CPU :=
  { cpuZero with
    reg := { regsZero with pc := 0x200 }
    mmu := { mem := fun a => if a = 0x200 then 0xAB else 0, inte := 0, intf := 0, speed := false }
    halt_bug := true }

/-- Concrete state about to execute DI (opcode 0xF3) with `ime = true`. -/
def diCPU : Core.CPU :=
  { cpuZero with
    mmu := { mem := fun a => if a = 0 then 0xF3 else 0, inte := 0, intf := 0, speed := false } }

/-- A concrete 0x8000-byte (two-bank) ROM image whose header byte
0x147 selects MBC1 and whose data byte at offset `i` is
`(i / 0x4000) % 256` (so bank 1's data is the constant 1). -/
def cartRom : Nat → Nat := fun i => if i = 0x147 then 0x01 else (i / 0x4000) % 256

/-- The memory after loading `cartRom`. -/
def loadedMem : Proto.Memory := Proto.Memory.new.load_rom cartRom 0x8000

/-- The memory of the claim's scenario: enable mask 0xFF, request mask
0b10011 in the interrupt-flag I/O register. -/
def exampleIntMem : Proto.Memory :=
  { Proto.Memory.new with
    interrupt_enable := 0xFF
    io_registers := upd (fun _ => 0) 0x0F 0b10011 }

/-- Spec-side: numeric value of a 2-digit BCD byte. -/
def bcdVal (x : Nat) : Nat := x / 16 * 10 + x % 16

/-- Spec-side: 2-digit BCD encoding of a value below 100. -/
def bcdOfNat (d : Nat) : Nat := d / 10 * 16 + d % 10

/-- Spec-side: the byte is a valid 2-digit BCD value (both nibbles ≤ 9). -/
def validBCD (x : Nat) : Prop := x % 16 ≤ 9 ∧ x / 16 ≤ 9

/-- Proof-side shorthand: the adjustment byte computed by `alu_daa` in
its add (`N = false`) branch, from the stored carry flag `cc`, the
stored half-carry flag `h`, and the accumulator byte `r`. -/
def daaAdjustAdd (cc h : Bool) (r : Nat) : Nat :=
  let adjust := if cc then 0x60 else 0x00
  let adjust := if h then adjust ||| 0x06 else adjust
  let adjust := if r &&& 0x0F > 0x09 then adjust ||| 0x06 else adjust
  if r > 0x99 then adjust ||| 0x60 else adjust

/-- Concrete state with `ime = true` and the Timer interrupt (bit 2)
pending. -/
def intCPU : Core.CPU :=
  { cpuZero with
    reg := { regsZero with pc := 0x150, sp := 0xFFFE }
    mmu := { mem := fun _ => 0, inte := 0x1F, intf := 0x04, speed := false } }

/-! ### Shared arithmetic/bitwise helper lemmas -/

theorem aux_and255 (x : Nat) : x &&& 255 = x % 256 := by
  have h := Nat.and_pow_two_sub_one_eq_mod x 8
  norm_num at h
  exact h

theorem aux_and15 (x : Nat) : x &&& 15 = x % 16 := by
  have h := Nat.and_pow_two_sub_one_eq_mod x 4
  norm_num at h
  exact h

theorem aux_shr8 (x : Nat) : x >>> 8 = x / 256 := by
  have h := Nat.shiftRight_eq_div_pow x 8
  norm_num at h
  exact h

theorem aux_shl8 (x : Nat) : x <<< 8 = x * 256 := by
  have h := Nat.shiftLeft_eq x 8
  norm_num at h
  exact h

theorem aux_or_lo (a b : Nat) (h : b < 256) : (a * 256) ||| b = a * 256 + b := by
  have key := Nat.mul_add_lt_is_or (i := 8) (b := b) (by simpa using h) a
  rw [show (2 : Nat) ^ 8 = 256 from by norm_num, Nat.mul_comm 256 a] at key
  omega

theorem aux_and240_small : ∀ y : Nat, y < 256 → y &&& 240 = y / 16 * 16 := by decide

theorem aux_and240 (x : Nat) : x &&& 240 = x % 256 / 16 * 16 := by
  conv_lhs => rw [show (240 : Nat) = 255 &&& 240 from by decide]
  rw [← Nat.land_assoc, aux_and255]
  exact aux_and240_small (x % 256) (Nat.mod_lt _ (by norm_num))

/-! ### C10 — unusable address range 0xFEA0–0xFEFF -/

/-- C10: for every address in the unusable range 0xFEA0–0xFEFF, the
address-space dispatcher returns 0xFF on read and a write leaves the
entire memory aggregate (all regions, I/O registers, bank-controller
fields) unchanged; the surrounding range arms make the dispatch total
over the 16-bit address space (the Rust match is exhaustive; the
embedded functions are total). -/
theorem c10_unusable_range (m : Proto.Memory) (addr v : Nat)
    (h1 : 0xFEA0 ≤ addr) (h2 : addr ≤ 0xFEFF) :
    Proto.Memory.read_byte m addr = 0xFF ∧ Proto.Memory.write_byte m addr v = m := by
  constructor
  · unfold Proto.Memory.read_byte
    rw [if_neg (show ¬ addr ≤ 0x3FFF by omega), if_neg (show ¬ addr ≤ 0x7FFF by omega),
        if_neg (show ¬ addr ≤ 0x9FFF by omega), if_neg (show ¬ addr ≤ 0xBFFF by omega),
        if_neg (show ¬ addr ≤ 0xDFFF by omega), if_neg (show ¬ addr ≤ 0xFDFF by omega),
        if_neg (show ¬ addr ≤ 0xFE9F by omega), if_pos (show addr ≤ 0xFEFF by omega)]
  · unfold Proto.Memory.write_byte
    rw [if_neg (show ¬ addr ≤ 0x7FFF by omega), if_neg (show ¬ addr ≤ 0x9FFF by omega),
        if_neg (show ¬ addr ≤ 0xBFFF by omega), if_neg (show ¬ addr ≤ 0xDFFF by omega),
        if_neg (show ¬ addr ≤ 0xFDFF by omega), if_neg (show ¬ addr ≤ 0xFE9F by omega),
        if_pos (show addr ≤ 0xFEFF by omega)]

/-- C10 witness: the theorem applied at a concrete address. -/
theorem c10_unusable_range_witness :
    Proto.Memory.read_byte Proto.Memory.new 0xFEA5 = 0xFF ∧
    Proto.Memory.write_byte Proto.Memory.new 0xFEA5 0x12 = Proto.Memory.new :=
  c10_unusable_range Proto.Memory.new 0xFEA5 0x12 (by norm_num) (by norm_num)

/-! ### C9 — snapshot load is atomic -/

/-- C9: `Device::load_state_slot` fails with a typed error on a missing
file or a blob the decoder rejects, leaving the live CPU aggregate
untouched; the aggregate is replaced only when decoding the whole blob
succeeds. -/
theorem c9_load_state_atomic :
    (∀ (dev : Core.Device) (decode : List Nat → Option Core.CPU) (data : List Nat),
      decode data = none →
      Core.load_state_slot dev decode (some data)
        = (Except.error "Failed to parse save state", dev)) ∧
    (∀ (dev : Core.Device) (decode : List Nat → Option Core.CPU),
      Core.load_state_slot dev decode none
        = (Except.error "Save state file does not exist", dev)) ∧
    (∀ (dev : Core.Device) (decode : List Nat → Option Core.CPU)
        (data : List Nat) (cpu : Core.CPU),
      decode data = some cpu →
      Core.load_state_slot dev decode (some data)
        = (Except.ok (), { dev with cpu := cpu })) := by
  refine ⟨?_, ?_, ?_⟩
  · intro dev decode data h
    simp [Core.load_state_slot, h]
  · intro dev decode
    simp [Core.load_state_slot]
  · intro dev decode data cpu h
    simp [Core.load_state_slot, h]

/-- C9 witness: the theorem applied to a concrete device and a decoder
that rejects every blob. -/
theorem c9_load_state_atomic_witness :
    Core.load_state_slot { cpu := cpuZero, save_state := none } (fun _ => none) (some [1, 2, 3])
      = (Except.error "Failed to parse save state", { cpu := cpuZero, save_state := none }) :=
  c9_load_state_atomic.1 { cpu := cpuZero, save_state := none } (fun _ => none) [1, 2, 3] rfl

/-! ### C8 — register-pair roundtrips -/

/-- C8: setting then reading a register pair returns the value for BC,
DE and HL; for AF the read-back is the value with its low nibble masked
to zero, and the low 4 bits of `get_af` are zero after every set. -/
theorem c8_pair_roundtrip (r : Proto.Registers) (v : Nat) (hv : v < 65536) :
    (Proto.Registers.set_bc r v).get_bc = v ∧
    (Proto.Registers.set_de r v).get_de = v ∧
    (Proto.Registers.set_hl r v).get_hl = v ∧
    (Proto.Registers.set_af r v).get_af = v - v % 16 ∧
    (Proto.Registers.set_af r v).get_af &&& 0x000F = 0 := by
  have hbyte : ∀ x : Nat, (x >>> 8) &&& 255 = x / 256 % 256 := by
    intro x; rw [aux_shr8, aux_and255]
  have hround : ((v >>> 8) &&& 255) <<< 8 ||| (v &&& 255) = v := by
    rw [hbyte, aux_shl8, aux_and255, aux_or_lo _ _ (Nat.mod_lt _ (by norm_num))]
    omega
  have hafval : ((v >>> 8) &&& 255) <<< 8 ||| (v &&& 240) = v - v % 16 := by
    rw [hbyte, aux_shl8, aux_and240, aux_or_lo _ _ (by omega)]
    omega
  refine ⟨hround, hround, hround, hafval, ?_⟩
  show (((v >>> 8) &&& 255) <<< 8 ||| (v &&& 240)) &&& 15 = 0
  rw [aux_and15, hafval]
  omega

/-- C8 witness: the theorem applied at a concrete 16-bit value. -/
theorem c8_pair_roundtrip_witness :
    (Proto.Registers.set_bc Proto.Registers.new 0xBEEF).get_bc = 0xBEEF ∧
    (Proto.Registers.set_de Proto.Registers.new 0xBEEF).get_de = 0xBEEF ∧
    (Proto.Registers.set_hl Proto.Registers.new 0xBEEF).get_hl = 0xBEEF ∧
    (Proto.Registers.set_af Proto.Registers.new 0xBEEF).get_af = 0xBEEF - 0xBEEF % 16 ∧
    (Proto.Registers.set_af Proto.Registers.new 0xBEEF).get_af &&& 0x000F = 0 :=
  c8_pair_roundtrip Proto.Registers.new 0xBEEF (by norm_num)

/-! ### C2 — halt-bug flag -/

/-- C2 counterexample: `op_76` sets the halt-bug flag although the
master-enable flag is `true`, refuting the claim that the flag is set
exactly when an interrupt is pending *and* master-enable is false. -/
theorem c2_haltbug_counterexample :
    ((Core.op_76 haltPendingCPU 0x76).map fun p => p.2.halt_bug) = some true ∧
    haltPendingCPU.ime = true ∧
    haltPendingCPU.mmu.intf &&& haltPendingCPU.mmu.inte &&& 0x1F ≠ 0 :=
  ⟨rfl, rfl, by decide⟩

/-- C2 (amended): the HALT handler sets the halt-bug flag exactly when
`(request & enable) & 0x1F` is nonzero — regardless of the
master-enable flag; while the flag is set the next fetch reads the
opcode byte without advancing the program counter and clears the flag,
and the fetch after that advances the program counter again, so the
flag affects exactly one fetch. -/
theorem c2_haltbug_amended :
    (∀ (c : Core.CPU) (op : Nat),
      Core.op_76 c op =
        some (1, { c with halted := true,
                          halt_bug := c.mmu.intf &&& c.mmu.inte &&& 0x1F != 0 })) ∧
    (∀ c : Core.CPU, c.halt_bug = true →
      Core.fetchbyte c = (Core.rb c.mmu c.reg.pc, { c with halt_bug := false })) ∧
    (∀ c : Core.CPU, c.halt_bug = false →
      Core.fetchbyte c =
        (Core.rb c.mmu c.reg.pc,
         { c with reg := { c.reg with pc := (c.reg.pc + 1) % 65536 } })) ∧
    (∀ c : Core.CPU, c.halt_bug = true →
      ((Core.fetchbyte (Core.fetchbyte c).2).2).reg.pc = (c.reg.pc + 1) % 65536) := by
  refine ⟨fun c op => rfl, ?_, ?_, ?_⟩
  · intro c h
    simp [Core.fetchbyte, h]
  · intro c h
    simp [Core.fetchbyte, h]
  · intro c h
    simp [Core.fetchbyte, h]

/-- C2 witness: a fetch under the halt-bug flag leaves the program
counter unchanged and clears the flag; the following fetch advances. -/
theorem c2_haltbug_amended_witness :
    Core.fetchbyte bugFetchCPU = (Core.rb bugFetchCPU.mmu 0x200, { bugFetchCPU with halt_bug := false }) ∧
    ((Core.fetchbyte (Core.fetchbyte bugFetchCPU).2).2).reg.pc = 0x201 :=
  ⟨c2_haltbug_amended.2.1 bugFetchCPU rfl,
   c2_haltbug_amended.2.2.2 bugFetchCPU rfl⟩

/-! ### C3 — EI/DI latency -/

/-- C3 counterexample: a full engine step that executes DI (0xF3)
lowers the master-enable flag during that very step, refuting the claim
that for both EI and DI the change "takes effect only after the next
instruction completes, never during the step that executes the
instruction itself". -/
theorem c3_di_immediate_counterexample :
    ((Core.docycle diCPU).map fun p => p.2.ime) = some false ∧ diCPU.ime = true :=
  ⟨rfl, rfl⟩

/-- C3 (amended): EI (0xFB) only arms the two-step `setei` countdown —
`ime` is unchanged during the EI step, unchanged while the countdown
drops from 2 to 1 at the start of the next step (so the next
instruction still runs with the old flag), and is raised only by the
following step's countdown update, i.e. after the next instruction has
completed.  DI (0xF3), by contrast, clears `ime` immediately in its own
step; the `setdi` countdown exists but is never armed by DI. -/
theorem c3_ei_delayed_di_immediate :
    (∀ c : Core.CPU, Core.op_misc c 0xFB = some (1, { c with setei := 2 })) ∧
    (∀ c : Core.CPU, c.setdi = 0 → c.setei = 2 →
      Core.updateime c = { c with setei := 1 }) ∧
    (∀ c : Core.CPU, c.setdi = 0 → c.setei = 1 →
      Core.updateime c = { c with setei := 0, ime := true }) ∧
    (∀ c : Core.CPU, Core.op_misc c 0xF3 = some (1, { c with ime := false })) := by
  refine ⟨fun c => rfl, ?_, ?_, fun c => rfl⟩
  · intro c h1 h2
    cases c
    simp_all [Core.updateime]
  · intro c h1 h2
    cases c
    simp_all [Core.updateime]

/-- C3 witness: the amended theorem applied at a concrete state — an
EI step arms the countdown without touching `ime`, and the two
following countdown updates raise `ime` only at the second one. -/
theorem c3_ei_delayed_di_immediate_witness :
    Core.op_misc { cpuZero with ime := false } 0xFB
      = some (1, { { cpuZero with ime := false } with setei := 2 }) ∧
    Core.updateime { cpuZero with ime := false, setei := 2 }
      = { { cpuZero with ime := false, setei := 2 } with setei := 1 } ∧
    Core.updateime { cpuZero with ime := false, setei := 1 }
      = { { cpuZero with ime := false, setei := 1 } with setei := 0, ime := true } :=
  ⟨c3_ei_delayed_di_immediate.1 { cpuZero with ime := false },
   c3_ei_delayed_di_immediate.2.1 { cpuZero with ime := false, setei := 2 } rfl rfl,
   c3_ei_delayed_di_immediate.2.2.1 { cpuZero with ime := false, setei := 1 } rfl rfl⟩

/-! ### C7 — memory-indirect cycle costs -/

/-- C7: evaluation of the cycle costs at the failing input.  For the
8-bit load block, `LD B,(HL)` (opcode 0x46) — a memory-indirect form —
costs 1 machine cycle, exactly the same as the register-only
`LD B,C` (opcode 0x41), because `op_ld_r_r` prices only the
`dest == 6` case (`LD (HL),B`, opcode 0x70, does cost 2).  The ALU
block by contrast does charge the (HL) form more (0x86 vs 0x80).  This
refutes the claim that every memory-indirect form costs strictly more
than its register-only counterpart. -/
theorem c7_ld_hl_cost_evaluation :
    (Core.op_ld_r_r cpuZero 0x46).map Prod.fst = some 1 ∧
    (Core.op_ld_r_r cpuZero 0x41).map Prod.fst = some 1 ∧
    (Core.op_ld_r_r cpuZero 0x70).map Prod.fst = some 2 ∧
    (Core.op_alu_r cpuZero 0x86).map Prod.fst = some 2 ∧
    (Core.op_alu_r cpuZero 0x80).map Prod.fst = some 1 := by
  refine ⟨rfl, rfl, rfl, rfl, rfl⟩

/-! ### C5 — ROM bank selection -/

/-- C5 counterexample: on the two-bank image, writing 0x05 to 0x2000
stores ROM bank index 5 verbatim — it is not reduced modulo the number
of physical banks (2), refuting the claimed invariant. -/
theorem c5_no_modulo_counterexample :
    (Proto.Memory.write_byte loadedMem 0x2000 0x05).rom_bank = 5 ∧
    0x8000 / 0x4000 = 2 ∧
    ¬ (Proto.Memory.write_byte loadedMem 0x2000 0x05).rom_bank < 2 := by
  refine ⟨rfl, rfl, by decide⟩

/-- C5 (amended): for the MBC1 controller a write to 0x2000–0x3FFF
stores `(rom_bank & 0x60) | (value & 0x1F)` with a zero low field
coerced to 1 — no modulo reduction by the number of physical banks is
performed.  On the loaded two-bank image, writing 0x00 to 0x2000 makes
the effective bank 1 and a read at 0x4000 returns bank-1 data (the
switchable window holds the image bytes from offset 0x4000). -/
theorem c5_bank_select_amended :
    (∀ (m : Proto.Memory) (addr v : Nat), m.mbc_type = Proto.MBCType.MBC1 →
      0x2000 ≤ addr → addr ≤ 0x3FFF →
      (Proto.Memory.write_byte m addr v).rom_bank =
        (m.rom_bank &&& 0x60) ||| (if v &&& 0x1F = 0 then 1 else v &&& 0x1F)) ∧
    ((Proto.Memory.write_byte loadedMem 0x2000 0x00).rom_bank = 1 ∧
      (Proto.Memory.write_byte loadedMem 0x2000 0x00).read_byte 0x4000 = cartRom 0x4000) := by
  refine ⟨?_, rfl, rfl⟩
  intro m addr v hm h1 h2
  unfold Proto.Memory.write_byte
  rw [if_pos (show addr ≤ 0x7FFF by omega)]
  simp only [Proto.Memory.write_mbc_register, hm]
  rw [if_neg (show ¬ addr ≤ 0x1FFF by omega), if_pos (show addr ≤ 0x3FFF by omega)]
  simp only [Proto.Memory.select_rom_bank]

/-- C5 witness: the amended theorem applied at a concrete MBC1 memory
and the coercing write of 0x00. -/
theorem c5_bank_select_amended_witness :
    (Proto.Memory.write_byte { Proto.Memory.new with mbc_type := Proto.MBCType.MBC1 } 0x2000 0x00).rom_bank =
      ({ Proto.Memory.new with mbc_type := Proto.MBCType.MBC1 }.rom_bank &&& 0x60) |||
        (if 0x00 &&& 0x1F = 0 then 1 else 0x00 &&& 0x1F) :=
  c5_bank_select_amended.1 { Proto.Memory.new with mbc_type := Proto.MBCType.MBC1 } 0x2000 0x00
    rfl (by norm_num) (by norm_num)

/-! ### C4 — interrupt selection -/

theorem aux_and_one_shift (p k : Nat) : (p &&& (1 <<< k) ≠ 0) ↔ p.testBit k = true := by
  rw [Nat.one_shiftLeft, Nat.and_two_pow]
  cases h : p.testBit k
  · simp
  · have hp : 0 < (2 : Nat) ^ k := Nat.pow_pos (by norm_num)
    simp [hp.ne']

theorem hpi_testBit_form (m : Proto.Memory) :
    Proto.highest_pending_interrupt m =
      (if (m.interrupt_enable &&& m.io_registers 0x0F).testBit 0 = true then
        some Proto.Interrupt.VBlank
      else if (m.interrupt_enable &&& m.io_registers 0x0F).testBit 1 = true then
        some Proto.Interrupt.LCDStat
      else if (m.interrupt_enable &&& m.io_registers 0x0F).testBit 2 = true then
        some Proto.Interrupt.Timer
      else if (m.interrupt_enable &&& m.io_registers 0x0F).testBit 3 = true then
        some Proto.Interrupt.Serial
      else if (m.interrupt_enable &&& m.io_registers 0x0F).testBit 4 = true then
        some Proto.Interrupt.Joypad
      else none) := by
  simp only [Proto.highest_pending_interrupt]
  by_cases hz : m.interrupt_enable &&& m.io_registers 0x0F = 0
  · simp [hz]
  · rw [if_neg hz]
    simp only [aux_and_one_shift]

/-- C4: the interrupt selector is a pure function of the enable and
request masks; whenever it returns `some i`, bit `i.idx` is set in
`enable AND request` and no lower-numbered bit is; whenever it returns
`none`, no bit 0..4 is set in both masks; and on the claim's scenario —
request `0b10011`, enable `0xFF` — it selects VBlank (bit 0). -/
theorem c4_lowest_pending_interrupt :
    (∀ (m : Proto.Memory) (i : Proto.Interrupt),
      Proto.highest_pending_interrupt m = some i →
        (m.interrupt_enable &&& m.io_registers 0x0F).testBit i.idx = true ∧
        ∀ j, j < i.idx → (m.interrupt_enable &&& m.io_registers 0x0F).testBit j = false) ∧
    (∀ m : Proto.Memory,
      Proto.highest_pending_interrupt m = none →
        ∀ j, j < 5 → (m.interrupt_enable &&& m.io_registers 0x0F).testBit j = false) ∧
    Proto.highest_pending_interrupt exampleIntMem = some Proto.Interrupt.VBlank := by
  refine ⟨?_, ?_, by decide⟩
  · intro m i h
    rw [hpi_testBit_form] at h
    cases h0 : (m.interrupt_enable &&& m.io_registers 0x0F).testBit 0
    · cases h1 : (m.interrupt_enable &&& m.io_registers 0x0F).testBit 1
      · cases h2 : (m.interrupt_enable &&& m.io_registers 0x0F).testBit 2
        · cases h3 : (m.interrupt_enable &&& m.io_registers 0x0F).testBit 3
          · cases h4 : (m.interrupt_enable &&& m.io_registers 0x0F).testBit 4
            · simp [h0, h1, h2, h3, h4] at h
            · simp [h0, h1, h2, h3, h4] at h
              subst h
              refine ⟨by simpa [Proto.Interrupt.idx] using h4, ?_⟩
              intro j hj
              simp only [Proto.Interrupt.idx] at hj
              interval_cases j <;> assumption
          · simp [h0, h1, h2, h3] at h
            subst h
            refine ⟨by simpa [Proto.Interrupt.idx] using h3, ?_⟩
            intro j hj
            simp only [Proto.Interrupt.idx] at hj
            interval_cases j <;> assumption
        · simp [h0, h1, h2] at h
          subst h
          refine ⟨by simpa [Proto.Interrupt.idx] using h2, ?_⟩
          intro j hj
          simp only [Proto.Interrupt.idx] at hj
          interval_cases j <;> assumption
      · simp [h0, h1] at h
        subst h
        refine ⟨by simpa [Proto.Interrupt.idx] using h1, ?_⟩
        intro j hj
        simp only [Proto.Interrupt.idx] at hj
        interval_cases j
        exact h0
    · simp [h0] at h
      subst h
      refine ⟨by simpa [Proto.Interrupt.idx] using h0, ?_⟩
      intro j hj
      simp only [Proto.Interrupt.idx] at hj
      omega
  · intro m h
    rw [hpi_testBit_form] at h
    cases h0 : (m.interrupt_enable &&& m.io_registers 0x0F).testBit 0
    · cases h1 : (m.interrupt_enable &&& m.io_registers 0x0F).testBit 1
      · cases h2 : (m.interrupt_enable &&& m.io_registers 0x0F).testBit 2
        · cases h3 : (m.interrupt_enable &&& m.io_registers 0x0F).testBit 3
          · cases h4 : (m.interrupt_enable &&& m.io_registers 0x0F).testBit 4
            · intro j hj
              interval_cases j <;> assumption
            · simp [h0, h1, h2, h3, h4] at h
          · simp [h0, h1, h2, h3] at h
        · simp [h0, h1, h2] at h
      · simp [h0, h1] at h
    · simp [h0] at h

/-- C4 witness: the characterization applied to the scenario memory. -/
theorem c4_lowest_pending_interrupt_witness :
    (exampleIntMem.interrupt_enable &&& exampleIntMem.io_registers 0x0F).testBit
        Proto.Interrupt.VBlank.idx = true ∧
    ∀ j, j < Proto.Interrupt.VBlank.idx →
      (exampleIntMem.interrupt_enable &&& exampleIntMem.io_registers 0x0F).testBit j = false :=
  c4_lowest_pending_interrupt.1 exampleIntMem Proto.Interrupt.VBlank (by decide)

/-! ### C6 — decimal adjust after ADD -/

theorem aux_flag_chain_add : ∀ f : Nat, f < 256 → ∀ z h cc : Bool,
    Core.flagf (Core.flagf (Core.flagf (Core.flagf f Core.flZ z) Core.flH h) Core.flN false)
        Core.flC cc
      = (cond z 0x80 0) ||| (cond h 0x20 0) ||| (cond cc 0x10 0) := by decide

theorem aux_packed_getflag : ∀ z h cc : Bool,
    (((cond z 0x80 0) ||| (cond h 0x20 0) ||| (cond cc 0x10 0)) &&& Core.flC != 0) = cc ∧
    (((cond z 0x80 0) ||| (cond h 0x20 0) ||| (cond cc 0x10 0)) &&& Core.flH != 0) = h ∧
    (((cond z 0x80 0) ||| (cond h 0x20 0) ||| (cond cc 0x10 0)) &&& Core.flN != 0) = false ∧
    ((cond z 0x80 0) ||| (cond h 0x20 0) ||| (cond cc 0x10 0)) < 256 := by decide

theorem aux_daa_getflagC : ∀ f : Nat, f < 256 → ∀ cd zb : Bool,
    ((Core.flagf (Core.flagf (Core.flagf f Core.flC cd) Core.flH false) Core.flZ zb)
        &&& Core.flC != 0) = cd := by decide

theorem aux_alu_add_char (c : Core.CPU) (n : Nat) (hf : c.reg.f < 256) :
    (Core.alu_add c n false).reg.a = (c.reg.a + n) % 256 ∧
    (Core.alu_add c n false).reg.f =
      (cond ((c.reg.a + n) % 256 == 0) 0x80 0) |||
      (cond (decide ((c.reg.a &&& 0xF) + (n &&& 0xF) > 0xF)) 0x20 0) |||
      (cond (decide (c.reg.a + n > 0xFF)) 0x10 0) := by
  refine ⟨?_, ?_⟩
  · simp [Core.alu_add, Core.Regs.flag]
  · simp only [Core.alu_add, Bool.false_and, Bool.false_eq_true, if_false, Nat.add_zero,
      Core.Regs.flag]
    exact aux_flag_chain_add c.reg.f hf _ _ _

theorem aux_alu_daa_char (c1 : Core.CPU) (hN : c1.reg.getflag Core.flN = false)
    (hf1 : c1.reg.f < 256) :
    (Core.alu_daa c1).reg.a =
      (c1.reg.a + daaAdjustAdd (c1.reg.getflag Core.flC) (c1.reg.getflag Core.flH) c1.reg.a)
        % 256 ∧
    (Core.alu_daa c1).reg.getflag Core.flC =
      decide (daaAdjustAdd (c1.reg.getflag Core.flC) (c1.reg.getflag Core.flH) c1.reg.a
        ≥ 0x60) := by
  cases hcc : c1.reg.getflag Core.flC <;> cases hh : c1.reg.getflag Core.flH <;>
    refine ⟨?_, ?_⟩ <;>
      simp [Core.alu_daa, daaAdjustAdd, hN, hcc, hh, Core.Regs.flag] <;>
      simp [Core.Regs.getflag, aux_daa_getflagC c1.reg.f hf1]

theorem aux_daa_core : ∀ ah, ah < 10 → ∀ al, al < 10 → ∀ nh, nh < 10 → ∀ nl, nl < 10 →
    (((16 * ah + al + (16 * nh + nl)) % 256 +
        daaAdjustAdd (decide (16 * ah + al + (16 * nh + nl) > 0xFF))
          (decide (((16 * ah + al) &&& 0xF) + ((16 * nh + nl) &&& 0xF) > 0xF))
          ((16 * ah + al + (16 * nh + nl)) % 256)) % 256
      = bcdOfNat ((bcdVal (16 * ah + al) + bcdVal (16 * nh + nl)) % 100)) ∧
    (decide (daaAdjustAdd (decide (16 * ah + al + (16 * nh + nl) > 0xFF))
          (decide (((16 * ah + al) &&& 0xF) + ((16 * nh + nl) &&& 0xF) > 0xF))
          ((16 * ah + al + (16 * nh + nl)) % 256) ≥ 0x60)
      = decide (100 ≤ bcdVal (16 * ah + al) + bcdVal (16 * nh + nl))) := by decide

/-- C6: with the accumulator and the operand both valid 2-digit BCD
values, `ADD A,n` followed immediately by decimal-adjust leaves the
accumulator holding the BCD encoding of the decimal sum modulo 100,
and sets the carry flag iff the true decimal sum is at least 100.  The
adjustment is driven by the half-carry/carry/subtract flags stored by
the preceding ADD (`alu_daa` reads only those flag bits of the flags
byte), not by a fresh recomputation. -/
theorem c6_daa_after_add (c : Core.CPU) (n : Nat) (hf : c.reg.f < 256)
    (ha : validBCD c.reg.a) (hn : validBCD n) :
    (Core.alu_daa (Core.alu_add c n false)).reg.a
        = bcdOfNat ((bcdVal c.reg.a + bcdVal n) % 100) ∧
    (Core.alu_daa (Core.alu_add c n false)).reg.getflag Core.flC
        = decide (100 ≤ bcdVal c.reg.a + bcdVal n) := by
  obtain ⟨ha1, ha2⟩ := ha
  obtain ⟨hn1, hn2⟩ := hn
  obtain ⟨ha_a, ha_f⟩ := aux_alu_add_char c n hf
  have hflt : (Core.alu_add c n false).reg.f < 256 := by
    rw [ha_f]; exact (aux_packed_getflag _ _ _).2.2.2
  have hC : (Core.alu_add c n false).reg.getflag Core.flC
      = decide (c.reg.a + n > 0xFF) := by
    show ((Core.alu_add c n false).reg.f &&& Core.flC != 0) = _
    rw [ha_f]; exact (aux_packed_getflag _ _ _).1
  have hH : (Core.alu_add c n false).reg.getflag Core.flH
      = decide ((c.reg.a &&& 0xF) + (n &&& 0xF) > 0xF) := by
    show ((Core.alu_add c n false).reg.f &&& Core.flH != 0) = _
    rw [ha_f]; exact (aux_packed_getflag _ _ _).2.1
  have hN : (Core.alu_add c n false).reg.getflag Core.flN = false := by
    show ((Core.alu_add c n false).reg.f &&& Core.flN != 0) = _
    rw [ha_f]; exact (aux_packed_getflag _ _ _).2.2.1
  obtain ⟨hd_a, hd_c⟩ := aux_alu_daa_char (Core.alu_add c n false) hN hflt
  rw [hC, hH, ha_a] at hd_a hd_c
  have hcore := aux_daa_core (c.reg.a / 16) (by omega) (c.reg.a % 16) (by omega)
      (n / 16) (by omega) (n % 16) (by omega)
  have hsa : 16 * (c.reg.a / 16) + c.reg.a % 16 = c.reg.a := by omega
  have hsn : 16 * (n / 16) + n % 16 = n := by omega
  rw [hsa, hsn] at hcore
  exact ⟨hd_a.trans hcore.1, hd_c.trans hcore.2⟩

/-- C6 witness: the theorem applied at the concrete BCD bytes
`A = 0x46`, `n = 0x75` (decimal 46 + 75 = 121: accumulator 0x21, carry
set). -/
theorem c6_daa_after_add_witness :
    (Core.alu_daa (Core.alu_add { cpuZero with reg := { regsZero with a := 0x46 } } 0x75 false)).reg.a
        = bcdOfNat ((bcdVal 0x46 + bcdVal 0x75) % 100) ∧
    (Core.alu_daa (Core.alu_add { cpuZero with reg := { regsZero with a := 0x46 } } 0x75 false)).reg.getflag Core.flC
        = decide (100 ≤ bcdVal 0x46 + bcdVal 0x75) :=
  c6_daa_after_add { cpuZero with reg := { regsZero with a := 0x46 } } 0x75
    (by decide) (by exact ⟨by decide, by decide⟩) (by exact ⟨by decide, by decide⟩)

/-! ### C1 — interrupt dispatch -/

theorem aux_tz_lt5 : ∀ t, t ≤ 31 → t ≠ 0 → Core.tz t < 5 := by decide

theorem aux_tz_bit : ∀ t, t ≤ 31 → t ≠ 0 → t.testBit (Core.tz t) = true := by decide

theorem aux_vector : ∀ k, k < 5 → 0x40 ||| (k <<< 3) = 0x40 + 8 * k := by decide

theorem aux_clear_bit : ∀ p, p < 256 → ∀ k, k < 5 → ∀ j, j < 8 →
    (p &&& (0xFF ^^^ (1 <<< k))).testBit j = (if j = k then false else p.testBit j) := by decide

theorem aux_updateime_fields (c : Core.CPU) (hd : c.setdi ≠ 1) :
    (Core.updateime c).reg = c.reg ∧ (Core.updateime c).mmu = c.mmu ∧
    (Core.updateime c).halted = c.halted ∧
    (c.ime = true → (Core.updateime c).ime = true) := by
  obtain ⟨reg, mmu, halted, halt_bug, ime, setdi, setei⟩ := c
  simp only [Core.updateime]
  rcases setdi with _ | _ | _ | k
  · rcases setei with _ | _ | _ | k2 <;> simp
  · exact absurd rfl hd
  · rcases setei with _ | _ | _ | k2 <;> simp
  · rcases setei with _ | _ | _ | k2 <;> simp

theorem aux_dispatch (s : Core.CPU) (hi : s.ime = true)
    (ht : s.mmu.inte &&& s.mmu.intf &&& 0x1F ≠ 0) :
    Core.handleinterrupt s = some (4,
      { s with
        halted := false
        ime := false
        mmu := Core.ww
          { s.mmu with
            intf := s.mmu.intf &&&
              (0xFF ^^^ (1 <<< Core.tz (s.mmu.inte &&& s.mmu.intf &&& 0x1F))) }
          ((s.reg.sp + 65534) % 65536) s.reg.pc
        reg := { s.reg with
                 sp := (s.reg.sp + 65534) % 65536
                 pc := 0x40 ||| (Core.tz (s.mmu.inte &&& s.mmu.intf &&& 0x1F) <<< 3) } }) := by
  have h5 := aux_tz_lt5 _ Nat.and_le_right ht
  simp [Core.handleinterrupt, Core.pushstack, hi, ht, Nat.not_le.mpr h5]

theorem aux_ww_rw (m : Core.MMU) (a v : Nat) (hv : v < 65536) :
    Core.rw (Core.ww m a v) a = v := by
  unfold Core.rw Core.ww Core.wb Core.rb upd
  dsimp only
  have hne : ¬ (a % 65536 = (a + 1) % 65536) := by omega
  rw [if_neg hne, if_pos rfl, if_pos rfl]
  rw [aux_and255, aux_shr8, aux_and255, aux_shl8, Nat.lor_comm,
    aux_or_lo _ _ (by omega)]
  omega

/-- C1 counterexample: at a concrete state with master-enable set and an
interrupt pending, the dispatch step costs 4 machine cycles, not the
claimed 5. -/
theorem c1_dispatch_cost_counterexample :
    intCPU.ime = true ∧
    intCPU.mmu.inte &&& intCPU.mmu.intf &&& 0x1F ≠ 0 ∧
    (Core.docycle intCPU).map Prod.fst = some 4 ∧
    (Core.docycle intCPU).map Prod.fst ≠ some 5 :=
  ⟨rfl, by decide, rfl, by decide⟩

/-- C1 (amended): when the master-enable flag is set at the start of a
step (and no disable countdown is about to clear it), with
`(request & enable) & 0x1F` nonzero, the engine dispatches instead of
fetching: the step returns 4 machine cycles (not 5), the halted flag is
cleared, the program counter is pushed onto the stack (sp drops by 2
and reading the word back at the new sp yields the old pc), the program
counter is set to `0x40 + 8*n` for `n` the lowest set bit of
`request & enable`, and exactly the selected request bit is cleared. -/
theorem c1_interrupt_dispatch_amended (c : Core.CPU)
    (hi : c.ime = true) (hd : c.setdi ≠ 1)
    (ht : c.mmu.inte &&& c.mmu.intf &&& 0x1F ≠ 0)
    (hpc : c.reg.pc < 65536) (hintf : c.mmu.intf < 256) :
    ∃ c1, Core.docycle c = some (4, c1) ∧
      c1.halted = false ∧
      c1.reg.pc = 0x40 + 8 * Core.tz (c.mmu.inte &&& c.mmu.intf &&& 0x1F) ∧
      c1.reg.sp = (c.reg.sp + 65534) % 65536 ∧
      Core.rw c1.mmu c1.reg.sp = c.reg.pc ∧
      c.mmu.intf.testBit (Core.tz (c.mmu.inte &&& c.mmu.intf &&& 0x1F)) = true ∧
      c1.mmu.intf.testBit (Core.tz (c.mmu.inte &&& c.mmu.intf &&& 0x1F)) = false ∧
      (∀ j, j ≠ Core.tz (c.mmu.inte &&& c.mmu.intf &&& 0x1F) →
        c1.mmu.intf.testBit j = c.mmu.intf.testBit j) := by
  obtain ⟨hur, hum, huh, hui⟩ := aux_updateime_fields c hd
  have hiu : (Core.updateime c).ime = true := hui hi
  have htu : (Core.updateime c).mmu.inte &&& (Core.updateime c).mmu.intf &&& 0x1F ≠ 0 := by
    rw [hum]; exact ht
  have hdisp := aux_dispatch (Core.updateime c) hiu htu
  have h5 := aux_tz_lt5 _ (Nat.and_le_right) ht
  refine ⟨{ Core.updateime c with
            halted := false
            ime := false
            mmu := Core.ww
              { (Core.updateime c).mmu with
                intf := (Core.updateime c).mmu.intf &&&
                  (0xFF ^^^ (1 <<< Core.tz
                    ((Core.updateime c).mmu.inte &&& (Core.updateime c).mmu.intf &&& 0x1F))) }
              (((Core.updateime c).reg.sp + 65534) % 65536) (Core.updateime c).reg.pc
            reg := { (Core.updateime c).reg with
                     sp := (((Core.updateime c).reg.sp + 65534) % 65536)
                     pc := 0x40 ||| (Core.tz
                       ((Core.updateime c).mmu.inte &&& (Core.updateime c).mmu.intf &&& 0x1F) <<< 3) } },
          ?_, ?_, ?_, ?_, ?_, ?_, ?_, ?_⟩
  · show Core.docycle c = _
    simp only [Core.docycle]
    rw [hdisp]
  · rfl
  · show 0x40 ||| (Core.tz ((Core.updateime c).mmu.inte &&& (Core.updateime c).mmu.intf &&& 0x1F) <<< 3)
        = _
    rw [hum]
    exact aux_vector _ h5
  · show ((Core.updateime c).reg.sp + 65534) % 65536 = _
    rw [hur]
  · show Core.rw (Core.ww _ (((Core.updateime c).reg.sp + 65534) % 65536) (Core.updateime c).reg.pc)
        (((Core.updateime c).reg.sp + 65534) % 65536) = _
    rw [aux_ww_rw _ _ _ (by rw [hur]; exact hpc), hur]
  · have hbt := aux_tz_bit _ (Nat.and_le_right) ht
    simp only [Nat.testBit_and, Bool.and_eq_true] at hbt
    exact hbt.1.2
  · show ((Core.updateime c).mmu.intf &&&
        (0xFF ^^^ (1 <<< Core.tz ((Core.updateime c).mmu.inte &&& (Core.updateime c).mmu.intf &&& 0x1F)))).testBit
          (Core.tz (c.mmu.inte &&& c.mmu.intf &&& 0x1F)) = false
    rw [hum]
    rw [aux_clear_bit c.mmu.intf hintf _ h5 _ (by omega)]
    simp
  · intro j hj
    show ((Core.updateime c).mmu.intf &&&
        (0xFF ^^^ (1 <<< Core.tz ((Core.updateime c).mmu.inte &&& (Core.updateime c).mmu.intf &&& 0x1F)))).testBit j
          = c.mmu.intf.testBit j
    rw [hum]
    by_cases hj8 : j < 8
    · rw [aux_clear_bit c.mmu.intf hintf _ h5 _ hj8]
      simp [hj]
    · have h256 : (256 : Nat) ≤ 2 ^ j := by
        calc (256 : Nat) = 2 ^ 8 := by norm_num
        _ ≤ 2 ^ j := Nat.pow_le_pow_right (by norm_num) (by omega)
      rw [Nat.testBit_lt_two_pow (by omega : c.mmu.intf < 2 ^ j),
        Nat.testBit_lt_two_pow
          (by have := Nat.and_le_left (n := c.mmu.intf)
                (m := 0xFF ^^^ (1 <<< Core.tz (c.mmu.inte &&& c.mmu.intf &&& 0x1F)))
              omega)]

/-- C1 witness: the amended theorem applied at the concrete pending
state — the step costs 4 machine cycles. -/
theorem c1_interrupt_dispatch_amended_witness :
    (Core.docycle intCPU).map Prod.fst = some 4 ∧ intCPU.ime = true := by
  obtain ⟨c1, h, -, -, -, -, -, -, -⟩ :=
    c1_interrupt_dispatch_amended intCPU rfl (by decide) (by decide) (by decide) (by decide)
  exact ⟨by rw [h]; rfl, rfl⟩
